import Mathlib

/-!
# The food and sale resource stores

A shallow embedding of `internal/data/foods.go`, `internal/data/sales.go`,
`internal/data/models.go`, `cmd/api/foods.go` and `cmd/api/sales.go`.

Conventions of the embedding.

* Go integers (`int64`, `int32`, `int`, `Runtime`) are mathematical integers.
  The methods and handlers compare them and do no arithmetic on them.  The
  arithmetic on a stored column, `version + 1`, is done by the database on a
  column of 32 bits, the width of the field `Version`: an increment beyond
  2147483647 is refused and the statement fails.  The offset
  `(page - 1) * page_size` stays far below `2 ^ 63` for a page of at most
  10,000,000 and a page size of at most 100.
* A Go `[]string` is an `Option (List String)`: `none` is the nil slice, which
  the code tells apart from an empty one (`!= nil`).
* A Go `string` is a `String`; `len` is its size in bytes.
* The database behind `*sql.DB` is a value of type `DB`: the rows of the two
  tables and the text of every statement sent so far.  Every statement runs on
  these rows; time-outs and connection failures are not modelled, so the
  branches of the code that pass on an unexpected error are kept, and are taken
  only for the errors of a statement that the model names.
* A method with a pointer receiver or a pointer argument returns the new value
  of what it may have written.
-/

namespace Gofinal

/-! ## Go values -/

/-- A Go `[]string`; `none` is the nil slice. -/
abbrev StrSlice := Option (List String)

/-- Elements of a slice; the nil slice has none. -/
def StrSlice.elems : StrSlice → List String
  | none => []
  | some xs => xs

/-- Go `len` of a slice. -/
def StrSlice.len (s : StrSlice) : Nat := s.elems.length

/-- Go `len` of a string: its length in bytes. -/
def strLen (s : String) : Nat := s.utf8ByteSize

/-- Errors the code names: the two sentinels of `models.go`, `sql.ErrNoRows`,
`ErrInvalidRuntimeFormat`, and any other error value. -/
inductive Error where
  | ErrRecordNotFound
  | ErrEditConflict
  | ErrNoRows
  | ErrInvalidRuntimeFormat
  | other (msg : String)
  deriving DecidableEq, Repr

/-! ## Validator -/

/-- Modelled from the spec: package `internal/validator` is not among the
sources.  A validator holds the violations found so far, each a pair of a field
and a message. -/
structure Validator where
  Errors : List (String × String)
  deriving DecidableEq, Repr

/-- Modelled from the spec: `validator.New()`, a validator with no violation. -/
def Validator.New : Validator := ⟨[]⟩

/-- Modelled from the spec: records a violation; the violations form a set, so
a pair already present is not added again. -/
def Validator.AddError (v : Validator) (key message : String) : Validator :=
  if (key, message) ∈ v.Errors then v else ⟨v.Errors ++ [(key, message)]⟩

/-- Modelled from the spec: `v.Check(ok, key, message)` records the violation
when the rule `ok` does not hold, and goes on either way. -/
def Validator.Check (v : Validator) (ok : Bool) (key message : String) : Validator :=
  if ok then v else v.AddError key message

/-- Modelled from the spec: `v.Valid()`, no violation was recorded. -/
def Validator.Valid (v : Validator) : Bool := v.Errors.isEmpty

/-- Modelled from the spec: `validator.Unique`, the slice has no duplicates. -/
def Unique (values : StrSlice) : Bool := decide values.elems.Nodup

/-- Modelled from the spec: `validator.In`, the value is one of the list. -/
def In (value : String) (list : List String) : Bool := decide (value ∈ list)

/-! ## Resources (`internal/data`) -/

/-- Struct `Food` of `foods.go`. -/
structure Food where
  ID : Int
  CreatedAt : Int
  Title : String
  Price : Int
  Waittime : Int
  Recipe : StrSlice
  Version : Int
  deriving DecidableEq, Repr

/-- Struct `Sale` of `sales.go`; `Duration` has the integer type `Runtime`. -/
structure Sale where
  ID : Int
  CreatedAt : Int
  Title : String
  Description : String
  Duration : Int
  Foodsale : StrSlice
  Version : Int
  deriving DecidableEq, Repr

/-- `ValidateFood` of `foods.go`, check by check. -/
def ValidateFood (v : Validator) (food : Food) : Validator :=
  let v := v.Check (food.Title != "") "title" "must be provided"
  let v := v.Check (decide (strLen food.Title ≤ 500)) "title" "must not be more than 500 bytes long"
  let v := v.Check (food.Price != 0) "price" "must be provided"
  let v := v.Check (food.Waittime != 0) "waittime" "must be provided"
  let v := v.Check (decide (food.Recipe.len > 0)) "recipe" "must be provided"
  let v := v.Check (food.Waittime != 0) "waittime" "must be provided"
  let v := v.Check (decide (food.Waittime > 0)) "waittime" "must be a positive integer"
  let v := v.Check (decide (food.Recipe.len ≥ 1)) "recipe" "must contain at least 1 food"
  v.Check (Unique food.Recipe) "recipe" "must not contain duplicate values"

/-- `ValidateSale` of `sales.go`, check by check. -/
def ValidateSale (v : Validator) (sale : Sale) : Validator :=
  let v := v.Check (sale.Title != "") "title" "must be provided"
  let v := v.Check (decide (strLen sale.Title ≤ 500)) "title" "must not be more than 500 bytes long"
  let v := v.Check (decide (strLen sale.Description ≤ 500)) "description" "must not be more than 500 bytes long"
  let v := v.Check (sale.Duration != 0) "duration" "must be provided"
  let v := v.Check (decide (sale.Duration > 0)) "duration" "must be a positive integer"
  let v := v.Check (sale.Foodsale.isSome) "foodsale" "must be provided"
  let v := v.Check (decide (sale.Foodsale.len ≥ 1)) "foodsale" "must contain at least 1 food"
  v.Check (Unique sale.Foodsale) "foodsale" "must not contain duplicate values"

/-! ## The database -/

/-- State behind `*sql.DB`: the rows of the tables `foods` and `sales`, and the
text of every statement sent so far, oldest first. -/
structure DB where
  foods : List Food
  sales : List Sale
  log : List String
  deriving DecidableEq, Repr

/-- Sending a statement records its text. -/
def DB.send (db : DB) (query : String) : DB :=
  { db with log := db.log ++ [query] }

/-- `QueryRowContext(...).Scan(...)`: the first row of the result, or
`sql.ErrNoRows` when the result is empty. -/
def scanRow {α : Type} : List α → Except Error α
  | [] => .error .ErrNoRows
  | r :: _ => .ok r

/-! ## `FoodModel` -/

/-- `FoodModel.Get`. -/
def FoodModel.Get (db : DB) (id : Int) : DB × Except Error Food :=
  if id < 1 then
    (db, .error .ErrRecordNotFound)
  else
    let query := "SELECT * FROM foods WHERE id = $1"
    let db := db.send query
    match scanRow (db.foods.filter (fun r => r.ID == id)) with
    | .error err =>
      match err with
      | .ErrNoRows => (db, .error .ErrRecordNotFound)
      | _ => (db, .error err)
    | .ok food => (db, .ok food)

/-- Largest value of a 32-bit integer, the type of the field `Version` and of
the column `version`. -/
def maxInt32 : Int := 2147483647

/-- A row that the `UPDATE foods` statement for `food` is to write has a
version whose successor is beyond the 32-bit column. -/
def updateFoodsOutOfRange (db : DB) (food : Food) : Bool :=
  (db.foods.filter (fun r => r.ID == food.ID && r.Version == food.Version)).any
    (fun r => decide (maxInt32 < r.Version + 1))

/-- The `UPDATE foods ... WHERE id = $5 AND version = $6 RETURNING version`
statement: every row with that id and version gets the new column values and
its version plus one; the result lists the new version of each such row.  When
`version + 1` of such a row is beyond the 32-bit column, the statement fails
with `integer out of range` and writes no row. -/
def execUpdateFoods (db : DB) (query : String) (food : Food) :
    DB × Except Error (List Int) :=
  let hit := fun (r : Food) => r.ID == food.ID && r.Version == food.Version
  if updateFoodsOutOfRange db food then
    (db.send query, .error (.other "pq: integer out of range"))
  else
    let rows := db.foods.map (fun r =>
      if hit r then
        { r with Title := food.Title, Price := food.Price, Waittime := food.Waittime,
                 Recipe := food.Recipe, Version := r.Version + 1 }
      else r)
    ({ db.send query with foods := rows },
     .ok ((db.foods.filter hit).map (fun r => r.Version + 1)))

/-- `FoodModel.Update`; the second component is `*food` on return.  The error
of `QueryRowContext(...).Scan(&food.Version)` is that of the statement, or
`sql.ErrNoRows` when the statement returns no row. -/
def FoodModel.Update (db : DB) (food : Food) : DB × Food × Option Error :=
  let query :=
    "UPDATE foods SET title = $1, price = $2, waittime = $3, recipe = $4, version = version + 1 WHERE id = $5 AND version = $6 RETURNING version"
  let (db, returning) := execUpdateFoods db query food
  match returning.bind scanRow with
  | .error err =>
    match err with
    | .ErrNoRows => (db, food, some .ErrEditConflict)
    | _ => (db, food, some err)
  | .ok version => (db, { food with Version := version }, none)

/-- The `DELETE FROM foods WHERE id = $1` statement and its `RowsAffected`. -/
def execDeleteFoods (db : DB) (query : String) (id : Int) : DB × Except Error Nat :=
  ({ db.send query with foods := db.foods.filter (fun r => !(r.ID == id)) },
   .ok (db.foods.filter (fun r => r.ID == id)).length)

/-- `FoodModel.Delete`. -/
def FoodModel.Delete (db : DB) (id : Int) : DB × Option Error :=
  if id < 1 then
    (db, some .ErrRecordNotFound)
  else
    let query := "DELETE FROM foods WHERE id = $1"
    match execDeleteFoods db query id with
    | (db, .error err) => (db, some err)
    | (db, .ok rowsAffected) =>
      if rowsAffected == 0 then (db, some .ErrRecordNotFound) else (db, none)

/-! ## `SaleModel` -/

/-- `SaleModel.Get`. -/
def SaleModel.Get (db : DB) (id : Int) : DB × Except Error Sale :=
  if id < 1 then
    (db, .error .ErrRecordNotFound)
  else
    let query := "SELECT * FROM sales WHERE id = $1"
    let db := db.send query
    match scanRow (db.sales.filter (fun r => r.ID == id)) with
    | .error err =>
      match err with
      | .ErrNoRows => (db, .error .ErrRecordNotFound)
      | _ => (db, .error err)
    | .ok sale => (db, .ok sale)

/-- A row that the `UPDATE sales` statement for `sale` is to write has a
version whose successor is beyond the 32-bit column. -/
def updateSalesOutOfRange (db : DB) (sale : Sale) : Bool :=
  (db.sales.filter (fun r => r.ID == sale.ID && r.Version == sale.Version)).any
    (fun r => decide (maxInt32 < r.Version + 1))

/-- The `UPDATE sales ... WHERE id = $5 AND version = $6 RETURNING version`
statement: every row with that id and version gets the new column values and
its version plus one; the result lists the new version of each such row.  When
`version + 1` of such a row is beyond the 32-bit column, the statement fails
with `integer out of range` and writes no row. -/
def execUpdateSales (db : DB) (query : String) (sale : Sale) :
    DB × Except Error (List Int) :=
  let hit := fun (r : Sale) => r.ID == sale.ID && r.Version == sale.Version
  if updateSalesOutOfRange db sale then
    (db.send query, .error (.other "pq: integer out of range"))
  else
    let rows := db.sales.map (fun r =>
      if hit r then
        { r with Title := sale.Title, Description := sale.Description,
                 Duration := sale.Duration, Foodsale := sale.Foodsale,
                 Version := r.Version + 1 }
      else r)
    ({ db.send query with sales := rows },
     .ok ((db.sales.filter hit).map (fun r => r.Version + 1)))

/-- `SaleModel.Update`; the second component is `*sale` on return. -/
def SaleModel.Update (db : DB) (sale : Sale) : DB × Sale × Option Error :=
  let query :=
    "UPDATE sales SET title = $1, description = $2, duration = $3, foodsale = $4, version = version + 1 WHERE id = $5 AND version = $6 RETURNING version"
  let (db, returning) := execUpdateSales db query sale
  match returning.bind scanRow with
  | .error err =>
    match err with
    | .ErrNoRows => (db, sale, some .ErrEditConflict)
    | _ => (db, sale, some err)
  | .ok version => (db, { sale with Version := version }, none)

/-- The `DELETE FROM sales WHERE id = $1` statement and its `RowsAffected`. -/
def execDeleteSales (db : DB) (query : String) (id : Int) : DB × Except Error Nat :=
  ({ db.send query with sales := db.sales.filter (fun r => !(r.ID == id)) },
   .ok (db.sales.filter (fun r => r.ID == id)).length)

/-- `SaleModel.Delete`. -/
def SaleModel.Delete (db : DB) (id : Int) : DB × Option Error :=
  if id < 1 then
    (db, some .ErrRecordNotFound)
  else
    let query := "DELETE FROM sales WHERE id = $1"
    match execDeleteSales db query id with
    | (db, .error err) => (db, some err)
    | (db, .ok rowsAffected) =>
      if rowsAffected == 0 then (db, some .ErrRecordNotFound) else (db, none)

/-! ## Filters and metadata -/

/-- Modelled from the spec: struct `Filters` (its file is not among the
sources); the field names are those the handlers assign, but for `Sort`, a
reserved word here, which is `SortKey`. -/
structure Filters where
  Page : Int
  PageSize : Int
  SortKey : String
  SortSafeList : List String
  deriving DecidableEq, Repr

/-- Modelled from the spec: `ValidateFilters`.  The page is positive and at most
10,000,000, the page size is positive and at most 100, and the sort key is one
of the safelist. -/
def ValidateFilters (v : Validator) (f : Filters) : Validator :=
  let v := v.Check (decide (f.Page > 0)) "page" "must be greater than zero"
  let v := v.Check (decide (f.Page ≤ 10000000)) "page" "must be a maximum of 10 million"
  let v := v.Check (decide (f.PageSize > 0)) "page_size" "must be greater than zero"
  let v := v.Check (decide (f.PageSize ≤ 100)) "page_size" "must be a maximum of 100"
  v.Check (In f.SortKey f.SortSafeList) "sort" "invalid sort value"

/-- Modelled from the spec: the column name is the sort key without its
leading `-`. -/
def Filters.sortColumn (f : Filters) : String :=
  if f.SortKey.startsWith "-" then f.SortKey.drop 1 else f.SortKey

/-- Modelled from the spec: a leading `-` selects descending order. -/
def Filters.sortDirection (f : Filters) : String :=
  if f.SortKey.startsWith "-" then "DESC" else "ASC"

/-- Modelled from the spec: the limit is the page size. -/
def Filters.limit (f : Filters) : Int := f.PageSize

/-- Modelled from the spec: the offset is `(page - 1) * page_size`. -/
def Filters.offset (f : Filters) : Int := (f.Page - 1) * f.PageSize

/-- Modelled from the spec: struct `Metadata`. -/
structure Metadata where
  CurrentPage : Int
  PageSize : Int
  FirstPage : Int
  LastPage : Int
  TotalRecords : Int
  deriving DecidableEq, Repr

/-- Modelled from the spec: `calculateMetadata`.  All fields are zero when
there is no record; otherwise the last page is `ceil(total / page_size)`. -/
def calculateMetadata (totalRecords page pageSize : Int) : Metadata :=
  if totalRecords == 0 then
    ⟨0, 0, 0, 0, 0⟩
  else
    ⟨page, pageSize, 1, ⌈(totalRecords : ℚ) / (pageSize : ℚ)⌉, totalRecords⟩

/-! ## The listing statement -/

/-- What the listing statement leaves to the database: the full-text match of a
title against a query, `to_tsvector('simple', title) @@ plainto_tsquery('simple', q)`,
and, for each table, the comparison `le col a b` of two rows on the expression
`col` that stands after `ORDER BY`. -/
structure Postgres where
  tsMatch : String → String → Bool
  foodLe : String → Food → Food → Bool
  saleLe : String → Sale → Sale → Bool

/-- The clause `(column @> $2 OR $2 = '{}')`; a nil slice is sent as NULL, and
a condition that is NULL selects no row. -/
def tagsMatch (column : StrSlice) (arg : StrSlice) : Bool :=
  match arg with
  | none => false
  | some tags =>
    (match column with
     | none => false
     | some have_ => tags.all (fun t => decide (t ∈ have_))) || tags.isEmpty

/-- The order `ORDER BY col dir, id ASC`: `a` stands before `b`, or level with it. -/
def orderedBefore {α : Type} (le : String → α → α → Bool) (idOf : α → Int)
    (col dir : String) (a b : α) : Bool :=
  let lt := le col a b && !le col b a
  let gt := le col b a && !le col a b
  if dir == "DESC" then gt || (!lt && decide (idOf a ≤ idOf b))
  else lt || (!gt && decide (idOf a ≤ idOf b))

/-- `ORDER BY ... LIMIT $3 OFFSET $4` with the window `COUNT(*) OVER()`: the rows
that passed `WHERE` are ordered, each one carries their number, and the slice
`[offset, offset + limit)` is returned.  A negative limit or offset is an error
of the statement. -/
def orderLimitOffset {α : Type} (before : α → α → Bool) (selected : List α)
    (limit offset : Int) : Except Error (List (Int × α)) :=
  if limit < 0 then .error (.other "LIMIT must not be negative")
  else if offset < 0 then .error (.other "OFFSET must not be negative")
  else
    let ordered := selected.insertionSort (fun a b => before a b = true)
    .ok (((ordered.drop offset.toNat).take limit.toNat).map
      (fun r => ((selected.length : Int), r)))

/-- The loop `for rows.Next() { rows.Scan(&totalRecords, ...); append }`,
started from `totalRecords := 0` and an empty slice. -/
def scanAll {α : Type} (rows : List (Int × α)) : Int × List α :=
  rows.foldl (fun acc row => (row.1, acc.2 ++ [row.2])) (0, [])

/-- The `WHERE` clause of the listing statement on `foods`, with `$1` the
title and `$2` the recipe. -/
def whereFoods (pg : Postgres) (title : String) (recipe : StrSlice) (r : Food) : Bool :=
  (pg.tsMatch r.Title title || title == "") && tagsMatch r.Recipe recipe

/-- The `WHERE` clause of the listing statement on `sales`, with `$1` the
title and `$2` the foodsale. -/
def whereSales (pg : Postgres) (title : String) (foodsale : StrSlice) (r : Sale) : Bool :=
  (pg.tsMatch r.Title title || title == "") && tagsMatch r.Foodsale foodsale

/-- The listing statement of `FoodModel.GetAll`; `col` and `dir` are the two
pieces of text that were put into `query`. -/
def execGetAllFoods (pg : Postgres) (db : DB) (query col dir : String)
    (title : String) (recipe : StrSlice) (limit offset : Int) :
    DB × Except Error (List (Int × Food)) :=
  let selected := db.foods.filter (whereFoods pg title recipe)
  (db.send query,
   orderLimitOffset (orderedBefore pg.foodLe (fun r => r.ID) col dir) selected limit offset)

/-- The listing statement of `SaleModel.GetAll`. -/
def execGetAllSales (pg : Postgres) (db : DB) (query col dir : String)
    (title : String) (foodsale : StrSlice) (limit offset : Int) :
    DB × Except Error (List (Int × Sale)) :=
  let selected := db.sales.filter (whereSales pg title foodsale)
  (db.send query,
   orderLimitOffset (orderedBefore pg.saleLe (fun r => r.ID) col dir) selected limit offset)

/-- `FoodModel.GetAll` up to the end of its loop: the database, and either the
error of the statement or the values of `totalRecords` and `foods`.  Scanning a
row of the result into a `Food` does not fail. -/
def FoodModel.GetAll.scanned (pg : Postgres) (db : DB) (title : String) (recipe : StrSlice)
    (filters : Filters) : DB × Except Error (Int × List Food) :=
  let query :=
    "SELECT COUNT(*) OVER(), id, created_at, title, price, waittime, recipe, version FROM foods WHERE (to_tsvector('simple', title) @@ plainto_tsquery('simple', $1) OR $1 = '') AND (recipe @> $2 OR $2 = '\x7b\x7d') ORDER BY "
      ++ filters.sortColumn ++ " " ++ filters.sortDirection ++ ", id ASC LIMIT $3 OFFSET $4"
  match execGetAllFoods pg db query filters.sortColumn filters.sortDirection
      title recipe filters.limit filters.offset with
  | (db, .error err) => (db, .error err)
  | (db, .ok rows) => (db, .ok (scanAll rows))

/-- `FoodModel.GetAll`: the slice (nil on error), the metadata and the error. -/
def FoodModel.GetAll (pg : Postgres) (db : DB) (title : String) (recipe : StrSlice)
    (filters : Filters) : DB × List Food × Metadata × Option Error :=
  match FoodModel.GetAll.scanned pg db title recipe filters with
  | (db, .error err) => (db, [], ⟨0, 0, 0, 0, 0⟩, some err)
  | (db, .ok (totalRecords, foods)) =>
    let metadata := calculateMetadata totalRecords filters.Page filters.PageSize
    (db, foods, metadata, none)

/-- `SaleModel.GetAll` up to the end of its loop. -/
def SaleModel.GetAll.scanned (pg : Postgres) (db : DB) (title : String) (foodsale : StrSlice)
    (filters : Filters) : DB × Except Error (Int × List Sale) :=
  let query :=
    "SELECT COUNT(*) OVER(), id, created_at, title, description, duration, foodsale, version FROM sales WHERE (to_tsvector('simple', title) @@ plainto_tsquery('simple', $1) OR $1 = '') AND (foodsale @> $2 OR $2 = '\x7b\x7d') ORDER BY "
      ++ filters.sortColumn ++ " " ++ filters.sortDirection ++ ", id ASC LIMIT $3 OFFSET $4"
  match execGetAllSales pg db query filters.sortColumn filters.sortDirection
      title foodsale filters.limit filters.offset with
  | (db, .error err) => (db, .error err)
  | (db, .ok rows) => (db, .ok (scanAll rows))

/-- `SaleModel.GetAll`: the slice (nil on error), the metadata and the error. -/
def SaleModel.GetAll (pg : Postgres) (db : DB) (title : String) (foodsale : StrSlice)
    (filters : Filters) : DB × List Sale × Metadata × Option Error :=
  match SaleModel.GetAll.scanned pg db title foodsale filters with
  | (db, .error err) => (db, [], ⟨0, 0, 0, 0, 0⟩, some err)
  | (db, .ok (totalRecords, sales)) =>
    let metadata := calculateMetadata totalRecords filters.Page filters.PageSize
    (db, sales, metadata, none)

/-! ## Handlers (`cmd/api`)

A handler is a function of the database and of what it reads from the request;
it returns the database and the one response it writes.  The helpers that read
the request (`readIDParam`, `readJSON`, `readString`, `readCSV`, `readInt`) are
not among the sources, so their results are arguments.  `writeJSON` is taken to
succeed. -/

/-- Payload of a JSON response. -/
inductive Envelope where
  | food (food : Food)
  | sale (sale : Sale)
  | foods (foods : List Food) (metadata : Metadata)
  | sales (sales : List Sale) (metadata : Metadata)
  deriving DecidableEq, Repr

/-- How a handler ends: one of the response helpers, or a run-time panic. -/
inductive Response where
  | notFoundResponse
  | badRequestResponse (err : Error)
  | failedValidationResponse (errors : List (String × String))
  | editConflictResponse
  | serverErrorResponse (err : Error)
  | writeJSON (status : Nat) (data : Envelope)
  | indexOutOfRange (index length : Nat)
  deriving DecidableEq, Repr

/-- The `input` struct of `updateFoodHandler` after `readJSON`: a nil pointer
or nil slice is `none`. -/
structure FoodInput where
  Title : Option String
  Price : Option Int
  Waittime : Option Int
  Recipe : StrSlice
  deriving DecidableEq, Repr

/-- The `input` struct of `updateSaleHandler` after `readJSON`. -/
structure SaleInput where
  Title : Option String
  Description : Option String
  Duration : Option Int
  Foodsale : StrSlice
  deriving DecidableEq, Repr

/-- The four `if input.X != nil` assignments of `updateFoodHandler`. -/
def updateFoodHandler.merge (food : Food) (input : FoodInput) : Food :=
  let food := match input.Title with
    | some title => { food with Title := title }
    | none => food
  let food := match input.Price with
    | some price => { food with Price := price }
    | none => food
  let food := match input.Waittime with
    | some waittime => { food with Waittime := waittime }
    | none => food
  match input.Recipe with
  | some recipe => { food with Recipe := some recipe }
  | none => food

/-- The four `if input.X != nil` assignments of `updateSaleHandler`. -/
def updateSaleHandler.merge (sale : Sale) (input : SaleInput) : Sale :=
  let sale := match input.Title with
    | some title => { sale with Title := title }
    | none => sale
  let sale := match input.Description with
    | some description => { sale with Description := description }
    | none => sale
  let sale := match input.Duration with
    | some duration => { sale with Duration := duration }
    | none => sale
  match input.Foodsale with
  | some foodsale => { sale with Foodsale := some foodsale }
  | none => sale

/-- `updateFoodHandler`; `idParam` is the result of `readIDParam` and `body`
that of `readJSON`. -/
def updateFoodHandler (db : DB) (idParam : Except Error Int) (body : Except Error FoodInput) :
    DB × Response :=
  match idParam with
  | .error _ => (db, .notFoundResponse)
  | .ok id =>
    match FoodModel.Get db id with
    | (db, .error err) =>
      match err with
      | .ErrInvalidRuntimeFormat => (db, .notFoundResponse)
      | _ => (db, .serverErrorResponse err)
    | (db, .ok food) =>
      match body with
      | .error err => (db, .badRequestResponse err)
      | .ok input =>
        let food := updateFoodHandler.merge food input
        let v := ValidateFood Validator.New food
        if !v.Valid then
          (db, .failedValidationResponse v.Errors)
        else
          match FoodModel.Update db food with
          | (db, _, some err) =>
            match err with
            | .ErrEditConflict => (db, .editConflictResponse)
            | _ => (db, .serverErrorResponse err)
          | (db, food, none) => (db, .writeJSON 200 (.food food))

/-- `updateSaleHandler`. -/
def updateSaleHandler (db : DB) (idParam : Except Error Int) (body : Except Error SaleInput) :
    DB × Response :=
  match idParam with
  | .error _ => (db, .notFoundResponse)
  | .ok id =>
    match SaleModel.Get db id with
    | (db, .error err) =>
      match err with
      | .ErrInvalidRuntimeFormat => (db, .notFoundResponse)
      | _ => (db, .serverErrorResponse err)
    | (db, .ok sale) =>
      match body with
      | .error err => (db, .badRequestResponse err)
      | .ok input =>
        let sale := updateSaleHandler.merge sale input
        let v := ValidateSale Validator.New sale
        if !v.Valid then
          (db, .failedValidationResponse v.Errors)
        else
          match SaleModel.Update db sale with
          | (db, _, some err) =>
            match err with
            | .ErrEditConflict => (db, .editConflictResponse)
            | _ => (db, .serverErrorResponse err)
          | (db, sale, none) => (db, .writeJSON 200 (.sale sale))

/-- What a list handler reads from the query string: the title, the
comma-separated list, the page, the page size and the sort key (each with its
default when absent), and the validator `v` as the two `readInt` calls leave
it. -/
structure ListQuery where
  title : String
  csv : StrSlice
  page : Int
  pageSize : Int
  sort : String
  v : Validator
  deriving DecidableEq, Repr

/-- `listFoodsHandler`. -/
def listFoodsHandler (pg : Postgres) (db : DB) (qs : ListQuery) : DB × Response :=
  let filters : Filters :=
    { Page := qs.page, PageSize := qs.pageSize, SortKey := qs.sort,
      SortSafeList := ["id", "title", "price", "waittime", "-id", "-title", "-price", "-waittime"] }
  let v := ValidateFilters qs.v filters
  if !v.Valid then
    (db, .failedValidationResponse v.Errors)
  else
    match FoodModel.GetAll pg db qs.title qs.csv filters with
    | (db, _, _, some err) => (db, .serverErrorResponse err)
    | (db, foods, metadata, none) => (db, .writeJSON 200 (.foods foods metadata))

/-- `listSalesHandler`; the line `fmt.Println(sales[1].Title)` stands between
the call of `GetAll` and the test of its error, and an index that is not below
the length is a run-time panic. -/
def listSalesHandler (pg : Postgres) (db : DB) (qs : ListQuery) : DB × Response :=
  let filters : Filters :=
    { Page := qs.page, PageSize := qs.pageSize, SortKey := qs.sort,
      SortSafeList := ["id", "title", "description", "duration", "-id", "-title",
        "-description", "-duration"] }
  let v := ValidateFilters qs.v filters
  if !v.Valid then
    (db, .failedValidationResponse v.Errors)
  else
    match SaleModel.GetAll pg db qs.title qs.csv filters with
    | (db, sales, metadata, err) =>
      match sales.get? 1 with
      | none => (db, .indexOutOfRange 1 sales.length)
      | some _ =>
        match err with
        | some err => (db, .serverErrorResponse err)
        | none => (db, .writeJSON 200 (.sales sales metadata))

/-- The lines of `listSalesHandler` after the call of `GetAll`, as a function
of what `GetAll` returned: the `fmt.Println(sales[1].Title)`, the test of the
error, and the response. -/
def listSalesHandler.afterGetAll (outcome : DB × List Sale × Metadata × Option Error) :
    DB × Response :=
  match outcome with
  | (db, sales, metadata, err) =>
    match sales.get? 1 with
    | none => (db, .indexOutOfRange 1 sales.length)
    | some _ =>
      match err with
      | some err => (db, .serverErrorResponse err)
      | none => (db, .writeJSON 200 (.sales sales metadata))

/-- The lines of `listFoodsHandler` after the call of `GetAll`: the test of the
error, and the response. -/
def listFoodsHandler.afterGetAll (outcome : DB × List Food × Metadata × Option Error) :
    DB × Response :=
  match outcome with
  | (db, _, _, some err) => (db, .serverErrorResponse err)
  | (db, foods, metadata, none) => (db, .writeJSON 200 (.foods foods metadata))

/-- `showFoodHandler`; `idParam` is the result of `readIDParam`. -/
def showFoodHandler (db : DB) (idParam : Except Error Int) : DB × Response :=
  match idParam with
  | .error _ => (db, .notFoundResponse)
  | .ok id =>
    match FoodModel.Get db id with
    | (db, .error err) =>
      match err with
      | .ErrRecordNotFound => (db, .notFoundResponse)
      | _ => (db, .serverErrorResponse err)
    | (db, .ok food) => (db, .writeJSON 200 (.food food))

/-- `showSaleHandler`. -/
def showSaleHandler (db : DB) (idParam : Except Error Int) : DB × Response :=
  match idParam with
  | .error _ => (db, .notFoundResponse)
  | .ok id =>
    match SaleModel.Get db id with
    | (db, .error err) =>
      match err with
      | .ErrRecordNotFound => (db, .notFoundResponse)
      | _ => (db, .serverErrorResponse err)
    | (db, .ok sale) => (db, .writeJSON 200 (.sale sale))

/-! ## Statement helpers -/

/-- The row `r` as `UPDATE foods` rewrites it for `food` when it is hit. -/
def Food.written (r food : Food) : Food :=
  { r with Title := food.Title, Price := food.Price, Waittime := food.Waittime,
           Recipe := food.Recipe, Version := r.Version + 1 }

/-- The row `r` as `UPDATE sales` rewrites it for `sale` when it is hit. -/
def Sale.written (r sale : Sale) : Sale :=
  { r with Title := sale.Title, Description := sale.Description, Duration := sale.Duration,
           Foodsale := sale.Foodsale, Version := r.Version + 1 }

/-- Two updates of the food `id`, both carrying the fetched version `N`, run
one after the other: `first` succeeds and the stored and the returned version
are `N + 1`; `second` is refused with `ErrEditConflict`, which changes neither
the rows nor `second`; `second` repeated with version `N + 1` succeeds and the
stored and the returned version are `N + 2`. -/
def FoodModel.raceOutcome (db : DB) (id N : Int) (first second : Food) : Prop :=
  let r1 := FoodModel.Update db first
  let r2 := FoodModel.Update r1.1 second
  let r3 := FoodModel.Update r2.1 { second with Version := N + 1 }
  (r1.2.2 = none ∧ r1.2.1 = { first with Version := N + 1 } ∧
    ∃ row, (FoodModel.Get r1.1 id).2 = .ok row ∧ row.Version = N + 1) ∧
  (r2.2.2 = some Error.ErrEditConflict ∧ r2.2.1 = second ∧ r2.1.foods = r1.1.foods ∧
    ∃ row, (FoodModel.Get r2.1 id).2 = .ok row ∧ row.Version = N + 1) ∧
  (r3.2.2 = none ∧ r3.2.1 = { second with Version := N + 2 } ∧
    ∃ row, (FoodModel.Get r3.1 id).2 = .ok row ∧ row.Version = N + 2)

/-- The same for two updates of the sale `id`. -/
def SaleModel.raceOutcome (db : DB) (id N : Int) (first second : Sale) : Prop :=
  let r1 := SaleModel.Update db first
  let r2 := SaleModel.Update r1.1 second
  let r3 := SaleModel.Update r2.1 { second with Version := N + 1 }
  (r1.2.2 = none ∧ r1.2.1 = { first with Version := N + 1 } ∧
    ∃ row, (SaleModel.Get r1.1 id).2 = .ok row ∧ row.Version = N + 1) ∧
  (r2.2.2 = some Error.ErrEditConflict ∧ r2.2.1 = second ∧ r2.1.sales = r1.1.sales ∧
    ∃ row, (SaleModel.Get r2.1 id).2 = .ok row ∧ row.Version = N + 1) ∧
  (r3.2.2 = none ∧ r3.2.1 = { second with Version := N + 2 } ∧
    ∃ row, (SaleModel.Get r3.1 id).2 = .ok row ∧ row.Version = N + 2)

/-! ## Lemmas on `Update` and `Get` -/

/-- No row is to be written, or the version carried is below the top of the
column: the statement is in range. -/
theorem FoodModel_Update_inRange (db : DB) (food : Food)
    (h : db.foods.filter (fun r => r.ID == food.ID && r.Version == food.Version) = [] ∨
      food.Version < maxInt32) :
    updateFoodsOutOfRange db food = false := by
  unfold updateFoodsOutOfRange
  rcases h with h | h
  · rw [h]
    rfl
  · rw [List.any_eq_false]
    intro r hr
    have hhit := (List.mem_filter.mp hr).2
    simp only [Bool.and_eq_true, beq_iff_eq] at hhit
    simp only [decide_eq_true_eq]
    omega

theorem FoodModel_Update_foods (db : DB) (food : Food)
    (h : updateFoodsOutOfRange db food = false) :
    (FoodModel.Update db food).1.foods = db.foods.map (fun r =>
      if (r.ID == food.ID && r.Version == food.Version) = true then r.written food else r) := by
  unfold FoodModel.Update execUpdateFoods Food.written
  simp only [h, Bool.false_eq_true, if_false]
  split <;> (try split) <;> rfl

theorem FoodModel_Update_sales (db : DB) (food : Food) :
    (FoodModel.Update db food).1.sales = db.sales := by
  unfold FoodModel.Update execUpdateFoods
  simp only
  split <;> split <;> (try split) <;> rfl

theorem FoodModel_Update_result (db : DB) (food : Food)
    (h : updateFoodsOutOfRange db food = false) :
    (FoodModel.Update db food).2 =
      match (db.foods.filter (fun r => r.ID == food.ID && r.Version == food.Version)) with
      | [] => (food, some .ErrEditConflict)
      | r :: _ => ({ food with Version := r.Version + 1 }, none) := by
  unfold FoodModel.Update execUpdateFoods
  simp only [h, Bool.false_eq_true, if_false]
  cases h : db.foods.filter (fun r => r.ID == food.ID && r.Version == food.Version) with
  | nil => simp [scanRow, Except.bind]
  | cons r rest => simp [scanRow, Except.bind]

/-- A row to be written is at the top of the column: the update returns the
error of the statement, which is not `ErrEditConflict`, and changes neither the
rows nor the resource. -/
theorem FoodModel_Update_out_of_range (db : DB) (food : Food)
    (h : updateFoodsOutOfRange db food = true) :
    (FoodModel.Update db food).2 = (food, some (.other "pq: integer out of range")) ∧
    (FoodModel.Update db food).1.foods = db.foods := by
  unfold FoodModel.Update execUpdateFoods
  simp only [h, if_true]
  exact ⟨rfl, rfl⟩

theorem FoodModel_Get_result (db : DB) (id : Int) (h : 1 ≤ id) :
    (FoodModel.Get db id).2 =
      match db.foods.filter (fun r => r.ID == id) with
      | [] => .error .ErrRecordNotFound
      | r :: _ => .ok r := by
  unfold FoodModel.Get
  have h1 : ¬ id < 1 := by omega
  simp only [h1, if_false, DB.send]
  cases h : db.foods.filter (fun r => r.ID == id) with
  | nil => simp [scanRow]
  | cons r rest => simp [scanRow]

/-- No row matches: the update is refused and changes nothing. -/
theorem FoodModel_Update_stale (db : DB) (food : Food)
    (h : ¬ ∃ r ∈ db.foods, r.ID = food.ID ∧ r.Version = food.Version) :
    (FoodModel.Update db food).2.2 = some Error.ErrEditConflict ∧
    (FoodModel.Update db food).1.foods = db.foods ∧
    (FoodModel.Update db food).1.sales = db.sales ∧
    (FoodModel.Update db food).2.1 = food := by
  have hnil : db.foods.filter (fun r => r.ID == food.ID && r.Version == food.Version) = [] := by
    rw [List.filter_eq_nil_iff]
    intro r hr hhit
    simp only [Bool.and_eq_true, beq_iff_eq] at hhit
    exact h ⟨r, hr, hhit⟩
  have hin := FoodModel_Update_inRange db food (Or.inl hnil)
  have hres := FoodModel_Update_result db food hin
  rw [hnil] at hres
  refine ⟨by rw [hres], ?_, FoodModel_Update_sales db food, by rw [hres]⟩
  rw [FoodModel_Update_foods db food hin]
  conv_rhs => rw [← List.map_id db.foods]
  apply List.map_congr_left
  intro r hr
  have : ¬ ((r.ID == food.ID && r.Version == food.Version) = true) := by
    simp only [Bool.and_eq_true, beq_iff_eq]
    exact fun hh => h ⟨r, hr, hh⟩
  simp [this]

/-- The first row with the id of `food` has the version of `food`, which is
below the top of the column: the update succeeds, returns that version plus
one, and the first row with that id is then the rewritten one. -/
theorem FoodModel_Update_fresh (db : DB) (id : Int) (food cur : Food) (rest : List Food)
    (hid : food.ID = id)
    (hf : db.foods.filter (fun r => r.ID == id) = cur :: rest)
    (hv : cur.Version = food.Version) (hmax : food.Version < maxInt32) :
    (FoodModel.Update db food).2 = ({ food with Version := food.Version + 1 }, none) ∧
    ∃ rest', (FoodModel.Update db food).1.foods.filter (fun r => r.ID == id) =
      cur.written food :: rest' := by
  subst hid
  have hin := FoodModel_Update_inRange db food (Or.inr hmax)
  have hcur : cur.ID = food.ID := by
    have : cur ∈ db.foods.filter (fun r => r.ID == food.ID) := by rw [hf]; simp
    simpa using (List.mem_filter.mp this).2
  constructor
  · rw [FoodModel_Update_result db food hin]
    have hsplit : db.foods.filter (fun r => r.ID == food.ID && r.Version == food.Version) =
        (db.foods.filter (fun r => r.ID == food.ID)).filter
          (fun r => r.Version == food.Version) := by
      rw [List.filter_filter]
      congr 1
      funext r
      exact Bool.and_comm _ _
    rw [hsplit, hf, List.filter_cons_of_pos (by simpa using hv)]
    simp [hv]
  · rw [FoodModel_Update_foods db food hin, List.filter_map]
    have hcomp : ((fun r : Food => r.ID == food.ID) ∘ fun r =>
        if (r.ID == food.ID && r.Version == food.Version) = true then r.written food else r) =
        fun r => r.ID == food.ID := by
      funext r
      simp only [Function.comp]
      split <;> rfl
    rw [hcomp, hf, List.map_cons]
    have hhit : (cur.ID == food.ID && cur.Version == food.Version) = true := by
      simp [hcur, hv]
    rw [if_pos hhit]
    exact ⟨_, rfl⟩

/-- After an update that carried a version `N` below the top of the column, no
row has that id and version any more. -/
theorem FoodModel_Update_consumes (db : DB) (food : Food) (hmax : food.Version < maxInt32) :
    ¬ ∃ r ∈ (FoodModel.Update db food).1.foods, r.ID = food.ID ∧ r.Version = food.Version := by
  rintro ⟨r, hr, hid, hver⟩
  rw [FoodModel_Update_foods db food (FoodModel_Update_inRange db food (Or.inr hmax)),
    List.mem_map] at hr
  obtain ⟨r0, _, rfl⟩ := hr
  by_cases hhit : (r0.ID == food.ID && r0.Version == food.Version) = true
  · rw [if_pos hhit] at hver
    simp only [Bool.and_eq_true, beq_iff_eq] at hhit
    simp only [Food.written] at hver
    omega
  · rw [if_neg hhit] at hid hver
    exact hhit (by simp [hid, hver])

theorem FoodModel_Get_ok_iff (db : DB) (id : Int) (cur : Food) :
    (FoodModel.Get db id).2 = .ok cur ↔
      1 ≤ id ∧ ∃ rest, db.foods.filter (fun r => r.ID == id) = cur :: rest := by
  by_cases h : 1 ≤ id
  · rw [FoodModel_Get_result db id h]
    cases hl : db.foods.filter (fun r => r.ID == id) with
    | nil => simp
    | cons r rest => simp [h]
  · have hlt : id < 1 := by omega
    simp [FoodModel.Get, hlt, h]

theorem FoodModel_race (db : DB) (id N : Int) (cur first second : Food)
    (hmax : N + 2 ≤ maxInt32)
    (hget : (FoodModel.Get db id).2 = .ok cur) (hN : cur.Version = N)
    (h1 : first.ID = id) (h1v : first.Version = N)
    (h2 : second.ID = id) (h2v : second.Version = N) :
    FoodModel.raceOutcome db id N first second := by
  obtain ⟨hid, rest, hf⟩ := (FoodModel_Get_ok_iff db id cur).mp hget
  have hfirst : first.Version < maxInt32 := by omega
  -- the first update
  obtain ⟨hr1, rest1, hf1⟩ :=
    FoodModel_Update_fresh db id first cur rest h1 hf (by rw [hN, h1v]) hfirst
  -- the second update finds nothing
  have hnone : ¬ ∃ r ∈ (FoodModel.Update db first).1.foods,
      r.ID = second.ID ∧ r.Version = second.Version := by
    rw [h2, h2v, ← h1v, ← h1]
    exact FoodModel_Update_consumes db first hfirst
  obtain ⟨hr2e, hr2f, _, hr2v⟩ := FoodModel_Update_stale _ second hnone
  -- the repeated update
  obtain ⟨again, hagain⟩ : ∃ again : Food, again = { second with Version := N + 1 } := ⟨_, rfl⟩
  have ha : again.ID = id := by rw [hagain]; exact h2
  have hav : again.Version = N + 1 := by rw [hagain]
  have hf2 : (FoodModel.Update (FoodModel.Update db first).1 second).1.foods.filter
      (fun r => r.ID == id) = cur.written first :: rest1 := by
    rw [hr2f]
    exact hf1
  obtain ⟨hr3, rest3, hf3⟩ := FoodModel_Update_fresh _ id again
    (cur.written first) rest1 ha hf2 (by simp [Food.written, hN, hav]) (by omega)
  unfold FoodModel.raceOutcome
  simp only
  rw [← hagain]
  refine ⟨⟨by rw [hr1], by rw [hr1, h1v], cur.written first,
      (FoodModel_Get_ok_iff _ _ _).mpr ⟨hid, rest1, hf1⟩, by simp [Food.written, hN]⟩,
    ⟨hr2e, hr2v, hr2f, cur.written first,
      (FoodModel_Get_ok_iff _ _ _).mpr ⟨hid, rest1, hf2⟩, by simp [Food.written, hN]⟩,
    ⟨by rw [hr3], ?_, _, (FoodModel_Get_ok_iff _ _ _).mpr ⟨hid, rest3, hf3⟩, ?_⟩⟩
  · rw [hr3, hav, hagain]
    simp only [Food.mk.injEq, true_and]
    ring
  · simp only [Food.written, hN]
    ring

/-! ## The same lemmas for `SaleModel` -/

/-- No row is to be written, or the version carried is below the top of the
column: the statement is in range. -/
theorem SaleModel_Update_inRange (db : DB) (sale : Sale)
    (h : db.sales.filter (fun r => r.ID == sale.ID && r.Version == sale.Version) = [] ∨
      sale.Version < maxInt32) :
    updateSalesOutOfRange db sale = false := by
  unfold updateSalesOutOfRange
  rcases h with h | h
  · rw [h]
    rfl
  · rw [List.any_eq_false]
    intro r hr
    have hhit := (List.mem_filter.mp hr).2
    simp only [Bool.and_eq_true, beq_iff_eq] at hhit
    simp only [decide_eq_true_eq]
    omega

theorem SaleModel_Update_sales (db : DB) (sale : Sale)
    (h : updateSalesOutOfRange db sale = false) :
    (SaleModel.Update db sale).1.sales = db.sales.map (fun r =>
      if (r.ID == sale.ID && r.Version == sale.Version) = true then r.written sale else r) := by
  unfold SaleModel.Update execUpdateSales Sale.written
  simp only [h, Bool.false_eq_true, if_false]
  split <;> (try split) <;> rfl

theorem SaleModel_Update_foods (db : DB) (sale : Sale) :
    (SaleModel.Update db sale).1.foods = db.foods := by
  unfold SaleModel.Update execUpdateSales
  simp only
  split <;> split <;> (try split) <;> rfl

theorem SaleModel_Update_result (db : DB) (sale : Sale)
    (h : updateSalesOutOfRange db sale = false) :
    (SaleModel.Update db sale).2 =
      match (db.sales.filter (fun r => r.ID == sale.ID && r.Version == sale.Version)) with
      | [] => (sale, some .ErrEditConflict)
      | r :: _ => ({ sale with Version := r.Version + 1 }, none) := by
  unfold SaleModel.Update execUpdateSales
  simp only [h, Bool.false_eq_true, if_false]
  cases h : db.sales.filter (fun r => r.ID == sale.ID && r.Version == sale.Version) with
  | nil => simp [scanRow, Except.bind]
  | cons r rest => simp [scanRow, Except.bind]

/-- A row to be written is at the top of the column: the update returns the
error of the statement, which is not `ErrEditConflict`, and changes neither the
rows nor the resource. -/
theorem SaleModel_Update_out_of_range (db : DB) (sale : Sale)
    (h : updateSalesOutOfRange db sale = true) :
    (SaleModel.Update db sale).2 = (sale, some (.other "pq: integer out of range")) ∧
    (SaleModel.Update db sale).1.sales = db.sales := by
  unfold SaleModel.Update execUpdateSales
  simp only [h, if_true]
  exact ⟨rfl, rfl⟩

theorem SaleModel_Get_result (db : DB) (id : Int) (h : 1 ≤ id) :
    (SaleModel.Get db id).2 =
      match db.sales.filter (fun r => r.ID == id) with
      | [] => .error .ErrRecordNotFound
      | r :: _ => .ok r := by
  unfold SaleModel.Get
  have h1 : ¬ id < 1 := by omega
  simp only [h1, if_false, DB.send]
  cases h : db.sales.filter (fun r => r.ID == id) with
  | nil => simp [scanRow]
  | cons r rest => simp [scanRow]

/-- No row matches: the update is refused and changes nothing. -/
theorem SaleModel_Update_stale (db : DB) (sale : Sale)
    (h : ¬ ∃ r ∈ db.sales, r.ID = sale.ID ∧ r.Version = sale.Version) :
    (SaleModel.Update db sale).2.2 = some Error.ErrEditConflict ∧
    (SaleModel.Update db sale).1.sales = db.sales ∧
    (SaleModel.Update db sale).1.foods = db.foods ∧
    (SaleModel.Update db sale).2.1 = sale := by
  have hnil : db.sales.filter (fun r => r.ID == sale.ID && r.Version == sale.Version) = [] := by
    rw [List.filter_eq_nil_iff]
    intro r hr hhit
    simp only [Bool.and_eq_true, beq_iff_eq] at hhit
    exact h ⟨r, hr, hhit⟩
  have hin := SaleModel_Update_inRange db sale (Or.inl hnil)
  have hres := SaleModel_Update_result db sale hin
  rw [hnil] at hres
  refine ⟨by rw [hres], ?_, SaleModel_Update_foods db sale, by rw [hres]⟩
  rw [SaleModel_Update_sales db sale hin]
  conv_rhs => rw [← List.map_id db.sales]
  apply List.map_congr_left
  intro r hr
  have : ¬ ((r.ID == sale.ID && r.Version == sale.Version) = true) := by
    simp only [Bool.and_eq_true, beq_iff_eq]
    exact fun hh => h ⟨r, hr, hh⟩
  simp [this]

/-- The first row with the id of `sale` has the version of `sale`, which is
below the top of the column: the update succeeds, returns that version plus
one, and the first row with that id is then the rewritten one. -/
theorem SaleModel_Update_fresh (db : DB) (id : Int) (sale cur : Sale) (rest : List Sale)
    (hid : sale.ID = id)
    (hf : db.sales.filter (fun r => r.ID == id) = cur :: rest)
    (hv : cur.Version = sale.Version) (hmax : sale.Version < maxInt32) :
    (SaleModel.Update db sale).2 = ({ sale with Version := sale.Version + 1 }, none) ∧
    ∃ rest', (SaleModel.Update db sale).1.sales.filter (fun r => r.ID == id) =
      cur.written sale :: rest' := by
  subst hid
  have hin := SaleModel_Update_inRange db sale (Or.inr hmax)
  have hcur : cur.ID = sale.ID := by
    have : cur ∈ db.sales.filter (fun r => r.ID == sale.ID) := by rw [hf]; simp
    simpa using (List.mem_filter.mp this).2
  constructor
  · rw [SaleModel_Update_result db sale hin]
    have hsplit : db.sales.filter (fun r => r.ID == sale.ID && r.Version == sale.Version) =
        (db.sales.filter (fun r => r.ID == sale.ID)).filter
          (fun r => r.Version == sale.Version) := by
      rw [List.filter_filter]
      congr 1
      funext r
      exact Bool.and_comm _ _
    rw [hsplit, hf, List.filter_cons_of_pos (by simpa using hv)]
    simp [hv]
  · rw [SaleModel_Update_sales db sale hin, List.filter_map]
    have hcomp : ((fun r : Sale => r.ID == sale.ID) ∘ fun r =>
        if (r.ID == sale.ID && r.Version == sale.Version) = true then r.written sale else r) =
        fun r => r.ID == sale.ID := by
      funext r
      simp only [Function.comp]
      split <;> rfl
    rw [hcomp, hf, List.map_cons]
    have hhit : (cur.ID == sale.ID && cur.Version == sale.Version) = true := by
      simp [hcur, hv]
    rw [if_pos hhit]
    exact ⟨_, rfl⟩

/-- After an update that carried a version `N` below the top of the column, no
row has that id and version any more. -/
theorem SaleModel_Update_consumes (db : DB) (sale : Sale) (hmax : sale.Version < maxInt32) :
    ¬ ∃ r ∈ (SaleModel.Update db sale).1.sales, r.ID = sale.ID ∧ r.Version = sale.Version := by
  rintro ⟨r, hr, hid, hver⟩
  rw [SaleModel_Update_sales db sale (SaleModel_Update_inRange db sale (Or.inr hmax)),
    List.mem_map] at hr
  obtain ⟨r0, _, rfl⟩ := hr
  by_cases hhit : (r0.ID == sale.ID && r0.Version == sale.Version) = true
  · rw [if_pos hhit] at hver
    simp only [Bool.and_eq_true, beq_iff_eq] at hhit
    simp only [Sale.written] at hver
    omega
  · rw [if_neg hhit] at hid hver
    exact hhit (by simp [hid, hver])

theorem SaleModel_Get_ok_iff (db : DB) (id : Int) (cur : Sale) :
    (SaleModel.Get db id).2 = .ok cur ↔
      1 ≤ id ∧ ∃ rest, db.sales.filter (fun r => r.ID == id) = cur :: rest := by
  by_cases h : 1 ≤ id
  · rw [SaleModel_Get_result db id h]
    cases hl : db.sales.filter (fun r => r.ID == id) with
    | nil => simp
    | cons r rest => simp [h]
  · have hlt : id < 1 := by omega
    simp [SaleModel.Get, hlt, h]

theorem SaleModel_race (db : DB) (id N : Int) (cur first second : Sale)
    (hmax : N + 2 ≤ maxInt32)
    (hget : (SaleModel.Get db id).2 = .ok cur) (hN : cur.Version = N)
    (h1 : first.ID = id) (h1v : first.Version = N)
    (h2 : second.ID = id) (h2v : second.Version = N) :
    SaleModel.raceOutcome db id N first second := by
  obtain ⟨hid, rest, hf⟩ := (SaleModel_Get_ok_iff db id cur).mp hget
  have hfirst : first.Version < maxInt32 := by omega
  -- the first update
  obtain ⟨hr1, rest1, hf1⟩ :=
    SaleModel_Update_fresh db id first cur rest h1 hf (by rw [hN, h1v]) hfirst
  -- the second update finds nothing
  have hnone : ¬ ∃ r ∈ (SaleModel.Update db first).1.sales,
      r.ID = second.ID ∧ r.Version = second.Version := by
    rw [h2, h2v, ← h1v, ← h1]
    exact SaleModel_Update_consumes db first hfirst
  obtain ⟨hr2e, hr2f, _, hr2v⟩ := SaleModel_Update_stale _ second hnone
  -- the repeated update
  obtain ⟨again, hagain⟩ : ∃ again : Sale, again = { second with Version := N + 1 } := ⟨_, rfl⟩
  have ha : again.ID = id := by rw [hagain]; exact h2
  have hav : again.Version = N + 1 := by rw [hagain]
  have hf2 : (SaleModel.Update (SaleModel.Update db first).1 second).1.sales.filter
      (fun r => r.ID == id) = cur.written first :: rest1 := by
    rw [hr2f]
    exact hf1
  obtain ⟨hr3, rest3, hf3⟩ := SaleModel_Update_fresh _ id again
    (cur.written first) rest1 ha hf2 (by simp [Sale.written, hN, hav]) (by omega)
  unfold SaleModel.raceOutcome
  simp only
  rw [← hagain]
  refine ⟨⟨by rw [hr1], by rw [hr1, h1v], cur.written first,
      (SaleModel_Get_ok_iff _ _ _).mpr ⟨hid, rest1, hf1⟩, by simp [Sale.written, hN]⟩,
    ⟨hr2e, hr2v, hr2f, cur.written first,
      (SaleModel_Get_ok_iff _ _ _).mpr ⟨hid, rest1, hf2⟩, by simp [Sale.written, hN]⟩,
    ⟨by rw [hr3], ?_, _, (SaleModel_Get_ok_iff _ _ _).mpr ⟨hid, rest3, hf3⟩, ?_⟩⟩
  · rw [hr3, hav, hagain]
    simp only [Sale.mk.injEq, true_and]
    ring
  · simp only [Sale.written, hN]
    ring

/-! ## Optimistic concurrency -/

/-- C1. For every database and every resource passed to `FoodModel.Update` or
`SaleModel.Update`: when no row has both the id and the version of the
resource, `Update` returns `ErrEditConflict`, the rows of both tables are
exactly as before, and the resource, its version included, is returned as it
was passed. -/
theorem update_without_matching_row_is_edit_conflict (db : DB) (food : Food) (sale : Sale) :
    ((¬ ∃ r ∈ db.foods, r.ID = food.ID ∧ r.Version = food.Version) →
      (FoodModel.Update db food).2.2 = some Error.ErrEditConflict ∧
      (FoodModel.Update db food).1.foods = db.foods ∧
      (FoodModel.Update db food).1.sales = db.sales ∧
      (FoodModel.Update db food).2.1 = food) ∧
    ((¬ ∃ r ∈ db.sales, r.ID = sale.ID ∧ r.Version = sale.Version) →
      (SaleModel.Update db sale).2.2 = some Error.ErrEditConflict ∧
      (SaleModel.Update db sale).1.sales = db.sales ∧
      (SaleModel.Update db sale).1.foods = db.foods ∧
      (SaleModel.Update db sale).2.1 = sale) :=
  ⟨FoodModel_Update_stale db food, SaleModel_Update_stale db sale⟩

/-- C1 at a database whose food 1 and sale 1 are at version 2, for updates
that carry version 1. -/
theorem update_without_matching_row_is_edit_conflict_witness :
    (FoodModel.Update ⟨[⟨1, 0, "Pasta", 12, 20, some ["flour", "egg"], 2⟩],
        [⟨1, 0, "Lunch", "", 30, some ["1"], 2⟩], []⟩
      ⟨1, 0, "Pizza", 15, 25, some ["flour"], 1⟩).2 =
      (⟨1, 0, "Pizza", 15, 25, some ["flour"], 1⟩, some Error.ErrEditConflict) ∧
    (SaleModel.Update ⟨[⟨1, 0, "Pasta", 12, 20, some ["flour", "egg"], 2⟩],
        [⟨1, 0, "Lunch", "", 30, some ["1"], 2⟩], []⟩
      ⟨1, 0, "Dinner", "late", 45, some ["1"], 1⟩).2 =
      (⟨1, 0, "Dinner", "late", 45, some ["1"], 1⟩, some Error.ErrEditConflict) := by
  have h := update_without_matching_row_is_edit_conflict
    ⟨[⟨1, 0, "Pasta", 12, 20, some ["flour", "egg"], 2⟩],
      [⟨1, 0, "Lunch", "", 30, some ["1"], 2⟩], []⟩
    ⟨1, 0, "Pizza", 15, 25, some ["flour"], 1⟩
    ⟨1, 0, "Dinner", "late", 45, some ["1"], 1⟩
  obtain ⟨hf1, _, _, hf2⟩ := h.1 (by simp)
  obtain ⟨hs1, _, _, hs2⟩ := h.2 (by simp)
  exact ⟨Prod.ext hf2 hf1, Prod.ext hs2 hs1⟩

/-- C2 as stated fails at the top of the 32-bit version.  With food 1 stored
at version 2147483647, each of two updates that carry that version returns the
error `integer out of range` of the statement, not success and not
`ErrEditConflict`, so none of the two succeeds.  With food 1 stored at version
2147483646, the first update succeeds and the second is refused, but the second
repeated with version 2147483647 returns that error.  The same holds for a
sale. -/
theorem racing_updates_at_top_version_fail :
    ((FoodModel.Get ⟨[⟨1, 0, "Pasta", 12, 20, some ["flour", "egg"], 2147483647⟩], [], []⟩ 1).2 =
        .ok ⟨1, 0, "Pasta", 12, 20, some ["flour", "egg"], 2147483647⟩ ∧
      (FoodModel.Update ⟨[⟨1, 0, "Pasta", 12, 20, some ["flour", "egg"], 2147483647⟩], [], []⟩
        ⟨1, 0, "Pizza", 15, 25, some ["flour"], 2147483647⟩).2 =
        (⟨1, 0, "Pizza", 15, 25, some ["flour"], 2147483647⟩,
          some (.other "pq: integer out of range")) ∧
      (FoodModel.Update ⟨[⟨1, 0, "Pasta", 12, 20, some ["flour", "egg"], 2147483647⟩], [], []⟩
        ⟨1, 0, "Pasta", 13, 20, some ["flour", "egg"], 2147483647⟩).2 =
        (⟨1, 0, "Pasta", 13, 20, some ["flour", "egg"], 2147483647⟩,
          some (.other "pq: integer out of range")) ∧
      ¬ FoodModel.raceOutcome
        ⟨[⟨1, 0, "Pasta", 12, 20, some ["flour", "egg"], 2147483647⟩], [], []⟩ 1 2147483647
        ⟨1, 0, "Pizza", 15, 25, some ["flour"], 2147483647⟩
        ⟨1, 0, "Pasta", 13, 20, some ["flour", "egg"], 2147483647⟩) ∧
    ((FoodModel.Update
        (FoodModel.Update
          (FoodModel.Update
            ⟨[⟨1, 0, "Pasta", 12, 20, some ["flour", "egg"], 2147483646⟩], [], []⟩
            ⟨1, 0, "Pizza", 15, 25, some ["flour"], 2147483646⟩).1
          ⟨1, 0, "Pasta", 13, 20, some ["flour", "egg"], 2147483646⟩).1
        ⟨1, 0, "Pasta", 13, 20, some ["flour", "egg"], 2147483647⟩).2.2 =
        some (.other "pq: integer out of range") ∧
      ¬ FoodModel.raceOutcome
        ⟨[⟨1, 0, "Pasta", 12, 20, some ["flour", "egg"], 2147483646⟩], [], []⟩ 1 2147483646
        ⟨1, 0, "Pizza", 15, 25, some ["flour"], 2147483646⟩
        ⟨1, 0, "Pasta", 13, 20, some ["flour", "egg"], 2147483646⟩) ∧
    ((SaleModel.Update ⟨[], [⟨1, 0, "Lunch", "", 30, some ["1"], 2147483647⟩], []⟩
        ⟨1, 0, "Dinner", "late", 45, some ["1"], 2147483647⟩).2 =
        (⟨1, 0, "Dinner", "late", 45, some ["1"], 2147483647⟩,
          some (.other "pq: integer out of range")) ∧
      ¬ SaleModel.raceOutcome
        ⟨[], [⟨1, 0, "Lunch", "", 30, some ["1"], 2147483647⟩], []⟩ 1 2147483647
        ⟨1, 0, "Dinner", "late", 45, some ["1"], 2147483647⟩
        ⟨1, 0, "Lunch", "noon", 30, some ["1"], 2147483647⟩) := by
  refine ⟨⟨rfl, rfl, rfl, fun h => ?_⟩, ⟨rfl, fun h => ?_⟩, ⟨rfl, fun h => ?_⟩⟩
  · exact absurd h.1.1 (by decide)
  · exact absurd h.2.2.1 (by decide)
  · exact absurd h.1.1 (by decide)

/-- C2, amended.  Let `Get` return a stored resource at version `N` with
`N + 2` at most 2147483647, and let two updates of that resource both carry the
fetched version `N`.  Run one after the other in either order, the first
succeeds and leaves the stored version and the version of its resource at
`N + 1`; the second returns `ErrEditConflict`; repeated with version `N + 1`, it
succeeds and leaves the version at `N + 2`. -/
theorem racing_updates_exactly_one_succeeds (db : DB) (id N : Int)
    (hmax : N + 2 ≤ 2147483647) :
    (∀ cur a b : Food, (FoodModel.Get db id).2 = .ok cur → cur.Version = N →
      a.ID = id → a.Version = N → b.ID = id → b.Version = N →
      FoodModel.raceOutcome db id N a b ∧ FoodModel.raceOutcome db id N b a) ∧
    (∀ cur a b : Sale, (SaleModel.Get db id).2 = .ok cur → cur.Version = N →
      a.ID = id → a.Version = N → b.ID = id → b.Version = N →
      SaleModel.raceOutcome db id N a b ∧ SaleModel.raceOutcome db id N b a) :=
  ⟨fun cur a b hget hN ha hav hb hbv =>
      ⟨FoodModel_race db id N cur a b hmax hget hN ha hav hb hbv,
       FoodModel_race db id N cur b a hmax hget hN hb hbv ha hav⟩,
   fun cur a b hget hN ha hav hb hbv =>
      ⟨SaleModel_race db id N cur a b hmax hget hN ha hav hb hbv,
       SaleModel_race db id N cur b a hmax hget hN hb hbv ha hav⟩⟩

/-- C2, amended, at food 1 stored at version 2147483645, the largest the bound
allows, and at sale 1 stored at version 1, for two updates each. -/
theorem racing_updates_exactly_one_succeeds_witness :
    (FoodModel.raceOutcome
        ⟨[⟨1, 0, "Pasta", 12, 20, some ["flour", "egg"], 2147483645⟩],
          [⟨1, 0, "Lunch", "", 30, some ["1"], 1⟩], []⟩ 1 2147483645
        ⟨1, 0, "Pizza", 15, 25, some ["flour"], 2147483645⟩
        ⟨1, 0, "Pasta", 13, 20, some ["flour", "egg"], 2147483645⟩ ∧
      FoodModel.raceOutcome
        ⟨[⟨1, 0, "Pasta", 12, 20, some ["flour", "egg"], 2147483645⟩],
          [⟨1, 0, "Lunch", "", 30, some ["1"], 1⟩], []⟩ 1 2147483645
        ⟨1, 0, "Pasta", 13, 20, some ["flour", "egg"], 2147483645⟩
        ⟨1, 0, "Pizza", 15, 25, some ["flour"], 2147483645⟩) ∧
    (SaleModel.raceOutcome
        ⟨[⟨1, 0, "Pasta", 12, 20, some ["flour", "egg"], 2147483645⟩],
          [⟨1, 0, "Lunch", "", 30, some ["1"], 1⟩], []⟩ 1 1
        ⟨1, 0, "Dinner", "late", 45, some ["1"], 1⟩
        ⟨1, 0, "Lunch", "noon", 30, some ["1"], 1⟩ ∧
      SaleModel.raceOutcome
        ⟨[⟨1, 0, "Pasta", 12, 20, some ["flour", "egg"], 2147483645⟩],
          [⟨1, 0, "Lunch", "", 30, some ["1"], 1⟩], []⟩ 1 1
        ⟨1, 0, "Lunch", "noon", 30, some ["1"], 1⟩
        ⟨1, 0, "Dinner", "late", 45, some ["1"], 1⟩) :=
  ⟨(racing_updates_exactly_one_succeeds _ 1 2147483645 (by decide)).1
      ⟨1, 0, "Pasta", 12, 20, some ["flour", "egg"], 2147483645⟩ _ _ rfl rfl rfl rfl rfl rfl,
   (racing_updates_exactly_one_succeeds _ 1 1 (by decide)).2
      ⟨1, 0, "Lunch", "", 30, some ["1"], 1⟩ _ _ rfl rfl rfl rfl rfl rfl⟩

/-! ## Validation -/

theorem Validator_AddError_not_Valid (v : Validator) (key message : String) :
    (v.AddError key message).Valid = false := by
  unfold Validator.AddError Validator.Valid
  split
  · rename_i h
    cases hE : v.Errors with
    | nil => rw [hE] at h; simp at h
    | cons e es => rfl
  · simp

theorem Validator_Check_Valid (v : Validator) (ok : Bool) (key message : String) :
    (v.Check ok key message).Valid = (v.Valid && ok) := by
  unfold Validator.Check
  cases ok
  · simp [Validator_AddError_not_Valid]
  · simp

theorem Validator_AddError_mem (v : Validator) (key message : String) :
    (key, message) ∈ (v.AddError key message).Errors := by
  unfold Validator.AddError
  split
  · assumption
  · simp

theorem Validator_Check_mem (v : Validator) (ok : Bool) (key message : String)
    (h : ok = false) : (key, message) ∈ (v.Check ok key message).Errors := by
  unfold Validator.Check
  simp [h, Validator_AddError_mem]

theorem Validator_Check_mono (v : Validator) (ok : Bool) (key message : String)
    (e : String × String) (h : e ∈ v.Errors) : e ∈ (v.Check ok key message).Errors := by
  unfold Validator.Check Validator.AddError
  split
  · exact h
  · split
    · exact h
    · simp [h]

/-- C3. `ValidateFood` on a fresh validator reports no violation if and only
if the title is not empty and at most 500 bytes long, the price is not zero,
the waittime is greater than zero, and the recipe is not empty and has no
duplicates. -/
theorem ValidateFood_valid_iff (food : Food) :
    (ValidateFood Validator.New food).Valid = true ↔
      food.Title ≠ "" ∧ strLen food.Title ≤ 500 ∧ food.Price ≠ 0 ∧ 0 < food.Waittime ∧
      0 < food.Recipe.len ∧ food.Recipe.elems.Nodup := by
  simp only [ValidateFood, Validator_Check_Valid]
  simp only [Validator.New, Validator.Valid, Unique, List.isEmpty_nil, Bool.true_and,
    Bool.and_eq_true, bne_iff_ne, decide_eq_true_eq, ne_eq, gt_iff_lt, ge_iff_le]
  constructor
  · rintro ⟨⟨⟨⟨⟨⟨⟨⟨h1, h2⟩, h3⟩, h4⟩, h5⟩, h6⟩, h7⟩, h8⟩, h9⟩
    exact ⟨h1, h2, h3, h7, h5, h9⟩
  · rintro ⟨h1, h2, h3, h4, h5, h6⟩
    have h7 : ¬ food.Waittime = 0 := by omega
    exact ⟨⟨⟨⟨⟨⟨⟨⟨h1, h2⟩, h3⟩, h7⟩, h5⟩, h7⟩, h4⟩, h5⟩, h6⟩

/-- C4. `ValidateSale` on a fresh validator reports no violation if and only
if the title is not empty and at most 500 bytes long, the description is at
most 500 bytes long, the duration is greater than zero, and foodsale is not
empty and has no duplicates. -/
theorem ValidateSale_valid_iff (sale : Sale) :
    (ValidateSale Validator.New sale).Valid = true ↔
      sale.Title ≠ "" ∧ strLen sale.Title ≤ 500 ∧ strLen sale.Description ≤ 500 ∧
      0 < sale.Duration ∧ 0 < sale.Foodsale.len ∧ sale.Foodsale.elems.Nodup := by
  simp only [ValidateSale, Validator_Check_Valid]
  simp only [Validator.New, Validator.Valid, Unique, List.isEmpty_nil, Bool.true_and,
    Bool.and_eq_true, bne_iff_ne, decide_eq_true_eq, ne_eq, gt_iff_lt, ge_iff_le]
  constructor
  · rintro ⟨⟨⟨⟨⟨⟨⟨h1, h2⟩, h3⟩, h4⟩, h5⟩, h6⟩, h7⟩, h8⟩
    exact ⟨h1, h2, h3, h5, h7, h8⟩
  · rintro ⟨h1, h2, h3, h4, h5, h6⟩
    have h7 : ¬ sale.Duration = 0 := by omega
    have h8 : sale.Foodsale.isSome = true := by
      cases hs : sale.Foodsale with
      | none => rw [hs] at h5; simp [StrSlice.len, StrSlice.elems] at h5
      | some xs => rfl
    exact ⟨⟨⟨⟨⟨⟨⟨h1, h2⟩, h3⟩, h7⟩, h4⟩, h8⟩, h5⟩, h6⟩

/-- C5. `ValidateFood` and `ValidateSale` go through all their checks: from
any validator, every field that breaks one of its rules has a violation in the
result, whatever the other fields are. -/
theorem validation_reports_every_broken_field (v : Validator) (food : Food) (sale : Sale) :
    ((food.Title = "" ∨ 500 < strLen food.Title →
        ∃ m, ("title", m) ∈ (ValidateFood v food).Errors) ∧
      (food.Price = 0 → ∃ m, ("price", m) ∈ (ValidateFood v food).Errors) ∧
      (food.Waittime ≤ 0 → ∃ m, ("waittime", m) ∈ (ValidateFood v food).Errors) ∧
      (food.Recipe.len = 0 ∨ ¬ food.Recipe.elems.Nodup →
        ∃ m, ("recipe", m) ∈ (ValidateFood v food).Errors)) ∧
    ((sale.Title = "" ∨ 500 < strLen sale.Title →
        ∃ m, ("title", m) ∈ (ValidateSale v sale).Errors) ∧
      (500 < strLen sale.Description →
        ∃ m, ("description", m) ∈ (ValidateSale v sale).Errors) ∧
      (sale.Duration ≤ 0 → ∃ m, ("duration", m) ∈ (ValidateSale v sale).Errors) ∧
      (sale.Foodsale.len = 0 ∨ ¬ sale.Foodsale.elems.Nodup →
        ∃ m, ("foodsale", m) ∈ (ValidateSale v sale).Errors)) := by
  refine ⟨⟨?_, ?_, ?_, ?_⟩, ⟨?_, ?_, ?_, ?_⟩⟩
  · rintro (h | h)
    · refine ⟨"must be provided", ?_⟩
      unfold ValidateFood
      iterate 8 apply Validator_Check_mono
      exact Validator_Check_mem _ _ _ _ (by simp [h])
    · refine ⟨"must not be more than 500 bytes long", ?_⟩
      unfold ValidateFood
      iterate 7 apply Validator_Check_mono
      exact Validator_Check_mem _ _ _ _ (by simpa using h)
  · intro h
    refine ⟨"must be provided", ?_⟩
    unfold ValidateFood
    iterate 6 apply Validator_Check_mono
    exact Validator_Check_mem _ _ _ _ (by simp [h])
  · intro h
    refine ⟨"must be a positive integer", ?_⟩
    unfold ValidateFood
    iterate 2 apply Validator_Check_mono
    exact Validator_Check_mem _ _ _ _ (by simpa using h)
  · rintro (h | h)
    · refine ⟨"must contain at least 1 food", ?_⟩
      unfold ValidateFood
      iterate 1 apply Validator_Check_mono
      exact Validator_Check_mem _ _ _ _ (by simp [h])
    · refine ⟨"must not contain duplicate values", ?_⟩
      unfold ValidateFood
      exact Validator_Check_mem _ _ _ _ (by simpa [Unique] using h)
  · rintro (h | h)
    · refine ⟨"must be provided", ?_⟩
      unfold ValidateSale
      iterate 7 apply Validator_Check_mono
      exact Validator_Check_mem _ _ _ _ (by simp [h])
    · refine ⟨"must not be more than 500 bytes long", ?_⟩
      unfold ValidateSale
      iterate 6 apply Validator_Check_mono
      exact Validator_Check_mem _ _ _ _ (by simpa using h)
  · intro h
    refine ⟨"must not be more than 500 bytes long", ?_⟩
    unfold ValidateSale
    iterate 5 apply Validator_Check_mono
    exact Validator_Check_mem _ _ _ _ (by simpa using h)
  · intro h
    refine ⟨"must be a positive integer", ?_⟩
    unfold ValidateSale
    iterate 3 apply Validator_Check_mono
    exact Validator_Check_mem _ _ _ _ (by simpa using h)
  · rintro (h | h)
    · refine ⟨"must contain at least 1 food", ?_⟩
      unfold ValidateSale
      iterate 1 apply Validator_Check_mono
      exact Validator_Check_mem _ _ _ _ (by simp [h])
    · refine ⟨"must not contain duplicate values", ?_⟩
      unfold ValidateSale
      exact Validator_Check_mem _ _ _ _ (by simpa [Unique] using h)

/-- C5 at a food with an empty title, price 0, waittime 0 and an empty recipe,
and at a sale with an empty title, an empty description, duration 0 and an
empty foodsale: violations for all the broken fields at once. -/
theorem validation_reports_every_broken_field_witness :
    ((∃ m, ("title", m) ∈ (ValidateFood Validator.New ⟨0, 0, "", 0, 0, some [], 0⟩).Errors) ∧
      (∃ m, ("price", m) ∈ (ValidateFood Validator.New ⟨0, 0, "", 0, 0, some [], 0⟩).Errors) ∧
      (∃ m, ("waittime", m) ∈ (ValidateFood Validator.New ⟨0, 0, "", 0, 0, some [], 0⟩).Errors) ∧
      (∃ m, ("recipe", m) ∈ (ValidateFood Validator.New ⟨0, 0, "", 0, 0, some [], 0⟩).Errors)) ∧
    ((∃ m, ("title", m) ∈ (ValidateSale Validator.New ⟨0, 0, "", "", 0, some [], 0⟩).Errors) ∧
      (∃ m, ("duration", m) ∈ (ValidateSale Validator.New ⟨0, 0, "", "", 0, some [], 0⟩).Errors) ∧
      (∃ m, ("foodsale", m) ∈
        (ValidateSale Validator.New ⟨0, 0, "", "", 0, some [], 0⟩).Errors)) :=
  have h := validation_reports_every_broken_field Validator.New
    ⟨0, 0, "", 0, 0, some [], 0⟩ ⟨0, 0, "", "", 0, some [], 0⟩
  ⟨⟨h.1.1 (Or.inl rfl), h.1.2.1 rfl, h.1.2.2.1 (le_refl _), h.1.2.2.2 (Or.inl rfl)⟩,
   ⟨h.2.1 (Or.inl rfl), h.2.2.2.1 (le_refl _), h.2.2.2.2 (Or.inl rfl)⟩⟩

/-! ## `Get` and `Delete` -/

theorem FoodModel_low_id (db : DB) (id : Int) (h : id < 1) :
    FoodModel.Get db id = (db, .error .ErrRecordNotFound) ∧
    FoodModel.Delete db id = (db, some .ErrRecordNotFound) := by
  simp [FoodModel.Get, FoodModel.Delete, h]

theorem FoodModel_Get_not_found_iff (db : DB) (id : Int) (h : 1 ≤ id) :
    (FoodModel.Get db id).2 = .error .ErrRecordNotFound ↔ ¬ ∃ r ∈ db.foods, r.ID = id := by
  rw [FoodModel_Get_result db id h]
  cases hl : db.foods.filter (fun r => r.ID == id) with
  | nil =>
    simp only [true_iff]
    rintro ⟨r, hr, hid⟩
    have : r ∈ db.foods.filter (fun r => r.ID == id) := List.mem_filter.mpr ⟨hr, by simp [hid]⟩
    rw [hl] at this
    simp at this
  | cons r rest =>
    have hmem : r ∈ db.foods.filter (fun r => r.ID == id) := by rw [hl]; simp
    have := List.mem_filter.mp hmem
    simp only [reduceCtorEq, false_iff, not_not]
    exact ⟨r, this.1, by simpa using this.2⟩

theorem FoodModel_Get_found (db : DB) (id : Int) (h : 1 ≤ id)
    (hex : ∃ r ∈ db.foods, r.ID = id) :
    ∃ r ∈ db.foods, r.ID = id ∧ (FoodModel.Get db id).2 = .ok r := by
  rw [FoodModel_Get_result db id h]
  cases hl : db.foods.filter (fun r => r.ID == id) with
  | nil =>
    obtain ⟨r, hr, hid⟩ := hex
    have : r ∈ db.foods.filter (fun r => r.ID == id) := List.mem_filter.mpr ⟨hr, by simp [hid]⟩
    rw [hl] at this
    simp at this
  | cons r rest =>
    have hmem : r ∈ db.foods.filter (fun r => r.ID == id) := by rw [hl]; simp
    have := List.mem_filter.mp hmem
    exact ⟨r, this.1, by simpa using this.2, rfl⟩

theorem FoodModel_Delete_result (db : DB) (id : Int) (h : 1 ≤ id) :
    (FoodModel.Delete db id).1.foods = db.foods.filter (fun r => r.ID != id) ∧
    (FoodModel.Delete db id).1.sales = db.sales ∧
    (FoodModel.Delete db id).2 =
      if (db.foods.filter (fun r => r.ID == id)).length = 0 then some .ErrRecordNotFound
      else none := by
  have h1 : ¬ id < 1 := by omega
  unfold FoodModel.Delete execDeleteFoods
  simp only [h1, if_false]
  by_cases hz : (db.foods.filter (fun r => r.ID == id)).length = 0
  · have hb : ((db.foods.filter (fun r => r.ID == id)).length == 0) = true := by
      simpa using hz
    rw [if_pos hb, if_pos hz]
    exact ⟨rfl, rfl, rfl⟩
  · have hb : ¬ ((db.foods.filter (fun r => r.ID == id)).length == 0) = true := by
      simpa using hz
    rw [if_neg hb, if_neg hz]
    exact ⟨rfl, rfl, rfl⟩

theorem FoodModel_Delete_then (db : DB) (id : Int) (h : (FoodModel.Delete db id).2 = none) :
    (FoodModel.Get (FoodModel.Delete db id).1 id).2 = .error .ErrRecordNotFound ∧
    (FoodModel.Delete (FoodModel.Delete db id).1 id).2 = some .ErrRecordNotFound ∧
    (FoodModel.Delete db id).1.foods = db.foods.filter (fun r => r.ID != id) ∧
    (FoodModel.Delete db id).1.sales = db.sales := by
  by_cases hid : 1 ≤ id
  · obtain ⟨hrows, hother, _⟩ := FoodModel_Delete_result db id hid
    have hgone : (FoodModel.Delete db id).1.foods.filter (fun r => r.ID == id) = [] := by
      rw [hrows, List.filter_filter, List.filter_eq_nil_iff]
      intro r _
      simp
    refine ⟨?_, ?_, hrows, hother⟩
    · rw [FoodModel_Get_result _ id hid, hgone]
    · rw [(FoodModel_Delete_result _ id hid).2.2, hgone]
      simp
  · have hlt : id < 1 := by omega
    rw [(FoodModel_low_id db id hlt).2] at h
    simp at h

theorem SaleModel_low_id (db : DB) (id : Int) (h : id < 1) :
    SaleModel.Get db id = (db, .error .ErrRecordNotFound) ∧
    SaleModel.Delete db id = (db, some .ErrRecordNotFound) := by
  simp [SaleModel.Get, SaleModel.Delete, h]

theorem SaleModel_Get_not_found_iff (db : DB) (id : Int) (h : 1 ≤ id) :
    (SaleModel.Get db id).2 = .error .ErrRecordNotFound ↔ ¬ ∃ r ∈ db.sales, r.ID = id := by
  rw [SaleModel_Get_result db id h]
  cases hl : db.sales.filter (fun r => r.ID == id) with
  | nil =>
    simp only [true_iff]
    rintro ⟨r, hr, hid⟩
    have : r ∈ db.sales.filter (fun r => r.ID == id) := List.mem_filter.mpr ⟨hr, by simp [hid]⟩
    rw [hl] at this
    simp at this
  | cons r rest =>
    have hmem : r ∈ db.sales.filter (fun r => r.ID == id) := by rw [hl]; simp
    have := List.mem_filter.mp hmem
    simp only [reduceCtorEq, false_iff, not_not]
    exact ⟨r, this.1, by simpa using this.2⟩

theorem SaleModel_Get_found (db : DB) (id : Int) (h : 1 ≤ id)
    (hex : ∃ r ∈ db.sales, r.ID = id) :
    ∃ r ∈ db.sales, r.ID = id ∧ (SaleModel.Get db id).2 = .ok r := by
  rw [SaleModel_Get_result db id h]
  cases hl : db.sales.filter (fun r => r.ID == id) with
  | nil =>
    obtain ⟨r, hr, hid⟩ := hex
    have : r ∈ db.sales.filter (fun r => r.ID == id) := List.mem_filter.mpr ⟨hr, by simp [hid]⟩
    rw [hl] at this
    simp at this
  | cons r rest =>
    have hmem : r ∈ db.sales.filter (fun r => r.ID == id) := by rw [hl]; simp
    have := List.mem_filter.mp hmem
    exact ⟨r, this.1, by simpa using this.2, rfl⟩

theorem SaleModel_Delete_result (db : DB) (id : Int) (h : 1 ≤ id) :
    (SaleModel.Delete db id).1.sales = db.sales.filter (fun r => r.ID != id) ∧
    (SaleModel.Delete db id).1.foods = db.foods ∧
    (SaleModel.Delete db id).2 =
      if (db.sales.filter (fun r => r.ID == id)).length = 0 then some .ErrRecordNotFound
      else none := by
  have h1 : ¬ id < 1 := by omega
  unfold SaleModel.Delete execDeleteSales
  simp only [h1, if_false]
  by_cases hz : (db.sales.filter (fun r => r.ID == id)).length = 0
  · have hb : ((db.sales.filter (fun r => r.ID == id)).length == 0) = true := by
      simpa using hz
    rw [if_pos hb, if_pos hz]
    exact ⟨rfl, rfl, rfl⟩
  · have hb : ¬ ((db.sales.filter (fun r => r.ID == id)).length == 0) = true := by
      simpa using hz
    rw [if_neg hb, if_neg hz]
    exact ⟨rfl, rfl, rfl⟩

theorem SaleModel_Delete_then (db : DB) (id : Int) (h : (SaleModel.Delete db id).2 = none) :
    (SaleModel.Get (SaleModel.Delete db id).1 id).2 = .error .ErrRecordNotFound ∧
    (SaleModel.Delete (SaleModel.Delete db id).1 id).2 = some .ErrRecordNotFound ∧
    (SaleModel.Delete db id).1.sales = db.sales.filter (fun r => r.ID != id) ∧
    (SaleModel.Delete db id).1.foods = db.foods := by
  by_cases hid : 1 ≤ id
  · obtain ⟨hrows, hother, _⟩ := SaleModel_Delete_result db id hid
    have hgone : (SaleModel.Delete db id).1.sales.filter (fun r => r.ID == id) = [] := by
      rw [hrows, List.filter_filter, List.filter_eq_nil_iff]
      intro r _
      simp
    refine ⟨?_, ?_, hrows, hother⟩
    · rw [SaleModel_Get_result _ id hid, hgone]
    · rw [(SaleModel_Delete_result _ id hid).2.2, hgone]
      simp
  · have hlt : id < 1 := by omega
    rw [(SaleModel_low_id db id hlt).2] at h
    simp at h

/-- C6. For an id below 1, `Get` and `Delete` of both models return
`ErrRecordNotFound` and no resource, and the database is the one passed in: no
statement was sent and no row changed.  For an id of at least 1, `Get` returns
`ErrRecordNotFound` exactly when no row has that id, and otherwise returns a
row of the table with that id. -/
theorem get_and_delete_not_found (db : DB) (id : Int) :
    (id < 1 →
      FoodModel.Get db id = (db, .error .ErrRecordNotFound) ∧
      FoodModel.Delete db id = (db, some .ErrRecordNotFound) ∧
      SaleModel.Get db id = (db, .error .ErrRecordNotFound) ∧
      SaleModel.Delete db id = (db, some .ErrRecordNotFound)) ∧
    (1 ≤ id →
      ((FoodModel.Get db id).2 = .error .ErrRecordNotFound ↔ ¬ ∃ r ∈ db.foods, r.ID = id) ∧
      ((∃ r ∈ db.foods, r.ID = id) →
        ∃ r ∈ db.foods, r.ID = id ∧ (FoodModel.Get db id).2 = .ok r) ∧
      ((SaleModel.Get db id).2 = .error .ErrRecordNotFound ↔ ¬ ∃ r ∈ db.sales, r.ID = id) ∧
      ((∃ r ∈ db.sales, r.ID = id) →
        ∃ r ∈ db.sales, r.ID = id ∧ (SaleModel.Get db id).2 = .ok r)) :=
  ⟨fun h => ⟨(FoodModel_low_id db id h).1, (FoodModel_low_id db id h).2,
      (SaleModel_low_id db id h).1, (SaleModel_low_id db id h).2⟩,
   fun h => ⟨FoodModel_Get_not_found_iff db id h, FoodModel_Get_found db id h,
      SaleModel_Get_not_found_iff db id h, SaleModel_Get_found db id h⟩⟩

/-- C6 at a database with food 1 and sale 1: ids 0 and -5 are refused without
a statement, and id 1 is found. -/
theorem get_and_delete_not_found_witness :
    (FoodModel.Get ⟨[⟨1, 0, "Pasta", 12, 20, some ["flour"], 1⟩],
        [⟨1, 0, "Lunch", "", 30, some ["1"], 1⟩], []⟩ 0 =
      (⟨[⟨1, 0, "Pasta", 12, 20, some ["flour"], 1⟩],
        [⟨1, 0, "Lunch", "", 30, some ["1"], 1⟩], []⟩, .error .ErrRecordNotFound)) ∧
    (SaleModel.Delete ⟨[⟨1, 0, "Pasta", 12, 20, some ["flour"], 1⟩],
        [⟨1, 0, "Lunch", "", 30, some ["1"], 1⟩], []⟩ (-5) =
      (⟨[⟨1, 0, "Pasta", 12, 20, some ["flour"], 1⟩],
        [⟨1, 0, "Lunch", "", 30, some ["1"], 1⟩], []⟩, some .ErrRecordNotFound)) ∧
    (∃ r ∈ [(⟨1, 0, "Pasta", 12, 20, some ["flour"], 1⟩ : Food)], r.ID = 1 ∧
      (FoodModel.Get ⟨[⟨1, 0, "Pasta", 12, 20, some ["flour"], 1⟩],
        [⟨1, 0, "Lunch", "", 30, some ["1"], 1⟩], []⟩ 1).2 = .ok r) ∧
    (∃ r ∈ [(⟨1, 0, "Lunch", "", 30, some ["1"], 1⟩ : Sale)], r.ID = 1 ∧
      (SaleModel.Get ⟨[⟨1, 0, "Pasta", 12, 20, some ["flour"], 1⟩],
        [⟨1, 0, "Lunch", "", 30, some ["1"], 1⟩], []⟩ 1).2 = .ok r) :=
  ⟨((get_and_delete_not_found _ 0).1 (by decide)).1,
   ((get_and_delete_not_found _ (-5)).1 (by decide)).2.2.2,
   ((get_and_delete_not_found ⟨[⟨1, 0, "Pasta", 12, 20, some ["flour"], 1⟩],
        [⟨1, 0, "Lunch", "", 30, some ["1"], 1⟩], []⟩ 1).2 (by decide)).2.1
      ⟨_, List.mem_singleton.mpr rfl, rfl⟩,
   ((get_and_delete_not_found ⟨[⟨1, 0, "Pasta", 12, 20, some ["flour"], 1⟩],
        [⟨1, 0, "Lunch", "", 30, some ["1"], 1⟩], []⟩ 1).2 (by decide)).2.2.2
      ⟨_, List.mem_singleton.mpr rfl, rfl⟩⟩

/-- C7. After a `Delete` of an id that returned no error, `Get` of that id
returns `ErrRecordNotFound`, a second `Delete` of that id returns
`ErrRecordNotFound`, and the tables are as before but for the rows of that id:
every row with another id is kept as it was. -/
theorem delete_then_get_and_delete_not_found (db : DB) (id : Int) :
    ((FoodModel.Delete db id).2 = none →
      (FoodModel.Get (FoodModel.Delete db id).1 id).2 = .error .ErrRecordNotFound ∧
      (FoodModel.Delete (FoodModel.Delete db id).1 id).2 = some .ErrRecordNotFound ∧
      (FoodModel.Delete db id).1.foods = db.foods.filter (fun r => r.ID != id) ∧
      (FoodModel.Delete db id).1.sales = db.sales) ∧
    ((SaleModel.Delete db id).2 = none →
      (SaleModel.Get (SaleModel.Delete db id).1 id).2 = .error .ErrRecordNotFound ∧
      (SaleModel.Delete (SaleModel.Delete db id).1 id).2 = some .ErrRecordNotFound ∧
      (SaleModel.Delete db id).1.sales = db.sales.filter (fun r => r.ID != id) ∧
      (SaleModel.Delete db id).1.foods = db.foods) :=
  ⟨FoodModel_Delete_then db id, SaleModel_Delete_then db id⟩

/-- C7 at a database with foods 1 and 2 and sales 1 and 2, for id 1. -/
theorem delete_then_get_and_delete_not_found_witness :
    ((FoodModel.Delete ⟨[⟨1, 0, "Pasta", 12, 20, some ["flour"], 1⟩,
          ⟨2, 0, "Soup", 5, 10, some ["water"], 3⟩],
        [⟨1, 0, "Lunch", "", 30, some ["1"], 1⟩, ⟨2, 0, "Dinner", "", 45, some ["2"], 1⟩],
        []⟩ 1).2 = none ∧
      (FoodModel.Delete ⟨[⟨1, 0, "Pasta", 12, 20, some ["flour"], 1⟩,
          ⟨2, 0, "Soup", 5, 10, some ["water"], 3⟩],
        [⟨1, 0, "Lunch", "", 30, some ["1"], 1⟩, ⟨2, 0, "Dinner", "", 45, some ["2"], 1⟩],
        []⟩ 1).1.foods = [⟨2, 0, "Soup", 5, 10, some ["water"], 3⟩]) ∧
    ((SaleModel.Delete ⟨[⟨1, 0, "Pasta", 12, 20, some ["flour"], 1⟩,
          ⟨2, 0, "Soup", 5, 10, some ["water"], 3⟩],
        [⟨1, 0, "Lunch", "", 30, some ["1"], 1⟩, ⟨2, 0, "Dinner", "", 45, some ["2"], 1⟩],
        []⟩ 1).2 = none ∧
      (SaleModel.Delete ⟨[⟨1, 0, "Pasta", 12, 20, some ["flour"], 1⟩,
          ⟨2, 0, "Soup", 5, 10, some ["water"], 3⟩],
        [⟨1, 0, "Lunch", "", 30, some ["1"], 1⟩, ⟨2, 0, "Dinner", "", 45, some ["2"], 1⟩],
        []⟩ 1).1.sales = [⟨2, 0, "Dinner", "", 45, some ["2"], 1⟩]) := by
  have h := delete_then_get_and_delete_not_found
    ⟨[⟨1, 0, "Pasta", 12, 20, some ["flour"], 1⟩, ⟨2, 0, "Soup", 5, 10, some ["water"], 3⟩],
      [⟨1, 0, "Lunch", "", 30, some ["1"], 1⟩, ⟨2, 0, "Dinner", "", 45, some ["2"], 1⟩], []⟩ 1
  exact ⟨⟨rfl, (h.1 rfl).2.2.1⟩, ⟨rfl, (h.2 rfl).2.2.1⟩⟩

/-! ## The list handlers -/

theorem ValidateFilters_unlisted (v : Validator) (f : Filters) (h : f.SortKey ∉ f.SortSafeList) :
    (ValidateFilters v f).Valid = false ∧
    ("sort", "invalid sort value") ∈ (ValidateFilters v f).Errors := by
  have hin : In f.SortKey f.SortSafeList = false := by simpa [In] using h
  unfold ValidateFilters
  refine ⟨?_, Validator_Check_mem _ _ _ _ hin⟩
  simp only [Validator_Check_Valid, hin, Bool.and_false]

theorem FoodModel_GetAll_sends (pg : Postgres) (db : DB) (title : String) (recipe : StrSlice)
    (filters : Filters) : (FoodModel.GetAll pg db title recipe filters).1 ≠ db := by
  have hlen : (FoodModel.GetAll pg db title recipe filters).1.log.length = db.log.length + 1 := by
    unfold FoodModel.GetAll FoodModel.GetAll.scanned execGetAllFoods
    simp only
    split <;> rename_i heq <;> split at heq <;> rename_i heq2 <;>
      simp only [Prod.mk.injEq] at heq heq2 <;>
      (obtain ⟨h1, _⟩ := heq; obtain ⟨h2, _⟩ := heq2; rw [← h1, ← h2]; simp [DB.send])
  intro h
  rw [h] at hlen
  omega

theorem SaleModel_GetAll_sends (pg : Postgres) (db : DB) (title : String) (foodsale : StrSlice)
    (filters : Filters) : (SaleModel.GetAll pg db title foodsale filters).1 ≠ db := by
  have hlen :
      (SaleModel.GetAll pg db title foodsale filters).1.log.length = db.log.length + 1 := by
    unfold SaleModel.GetAll SaleModel.GetAll.scanned execGetAllSales
    simp only
    split <;> rename_i heq <;> split at heq <;> rename_i heq2 <;>
      simp only [Prod.mk.injEq] at heq heq2 <;>
      (obtain ⟨h1, _⟩ := heq; obtain ⟨h2, _⟩ := heq2; rw [← h1, ← h2]; simp [DB.send])
  intro h
  rw [h] at hlen
  omega

/-- C8. In `listFoodsHandler` and `listSalesHandler`, a sort key that is not
one of the handler's safelist makes the filter validation fail: the handler
answers with the validation failure, which names the sort key, and the database
is the one passed in, so no statement was sent, whereas every call of `GetAll`
sends one. -/
theorem list_handlers_reject_unlisted_sort (pg : Postgres) (db : DB) (qs : ListQuery) :
    (qs.sort ∉ ["id", "title", "price", "waittime", "-id", "-title", "-price", "-waittime"] →
      ∃ errors, listFoodsHandler pg db qs = (db, .failedValidationResponse errors) ∧
        ("sort", "invalid sort value") ∈ errors) ∧
    (qs.sort ∉ ["id", "title", "description", "duration", "-id", "-title", "-description",
        "-duration"] →
      ∃ errors, listSalesHandler pg db qs = (db, .failedValidationResponse errors) ∧
        ("sort", "invalid sort value") ∈ errors) ∧
    (∀ title csv filters, (FoodModel.GetAll pg db title csv filters).1 ≠ db) ∧
    (∀ title csv filters, (SaleModel.GetAll pg db title csv filters).1 ≠ db) := by
  refine ⟨fun h => ?_, fun h => ?_, FoodModel_GetAll_sends pg db, SaleModel_GetAll_sends pg db⟩
  · obtain ⟨hv, hmem⟩ := ValidateFilters_unlisted qs.v
      { Page := qs.page, PageSize := qs.pageSize, SortKey := qs.sort,
        SortSafeList := ["id", "title", "price", "waittime", "-id", "-title", "-price",
          "-waittime"] } h
    refine ⟨_, ?_, hmem⟩
    unfold listFoodsHandler
    simp only [hv, Bool.not_false, if_true]
  · obtain ⟨hv, hmem⟩ := ValidateFilters_unlisted qs.v
      { Page := qs.page, PageSize := qs.pageSize, SortKey := qs.sort,
        SortSafeList := ["id", "title", "description", "duration", "-id", "-title",
          "-description", "-duration"] } h
    refine ⟨_, ?_, hmem⟩
    unfold listSalesHandler
    simp only [hv, Bool.not_false, if_true]

/-- C8 at the sort key `; DROP TABLE foods`, on a database with one food and
one sale and an empty log. -/
theorem list_handlers_reject_unlisted_sort_witness :
    (∃ errors, listFoodsHandler ⟨fun _ _ => true, fun _ a b => decide (a.ID ≤ b.ID),
        fun _ a b => decide (a.ID ≤ b.ID)⟩
      ⟨[⟨1, 0, "Pasta", 12, 20, some ["flour"], 1⟩], [⟨1, 0, "Lunch", "", 30, some ["1"], 1⟩], []⟩
      ⟨"", some [], 1, 20, "; DROP TABLE foods", Validator.New⟩ =
      (⟨[⟨1, 0, "Pasta", 12, 20, some ["flour"], 1⟩], [⟨1, 0, "Lunch", "", 30, some ["1"], 1⟩],
        []⟩, .failedValidationResponse errors) ∧ ("sort", "invalid sort value") ∈ errors) ∧
    (∃ errors, listSalesHandler ⟨fun _ _ => true, fun _ a b => decide (a.ID ≤ b.ID),
        fun _ a b => decide (a.ID ≤ b.ID)⟩
      ⟨[⟨1, 0, "Pasta", 12, 20, some ["flour"], 1⟩], [⟨1, 0, "Lunch", "", 30, some ["1"], 1⟩], []⟩
      ⟨"", some [], 1, 20, "; DROP TABLE foods", Validator.New⟩ =
      (⟨[⟨1, 0, "Pasta", 12, 20, some ["flour"], 1⟩], [⟨1, 0, "Lunch", "", 30, some ["1"], 1⟩],
        []⟩, .failedValidationResponse errors) ∧ ("sort", "invalid sort value") ∈ errors) := by
  have h := list_handlers_reject_unlisted_sort
    ⟨fun _ _ => true, fun _ a b => decide (a.ID ≤ b.ID), fun _ a b => decide (a.ID ≤ b.ID)⟩
    ⟨[⟨1, 0, "Pasta", 12, 20, some ["flour"], 1⟩], [⟨1, 0, "Lunch", "", 30, some ["1"], 1⟩], []⟩
    ⟨"", some [], 1, 20, "; DROP TABLE foods", Validator.New⟩
  exact ⟨h.1 (by decide), h.2.1 (by decide)⟩

/-! ## The total of `GetAll` -/

theorem scanAll_foldl {α : Type} (c : Int) (l : List α) (t : Int) (acc : List α) :
    (l.map (fun r => (c, r))).foldl (fun (a : Int × List α) row => (row.1, a.2 ++ [row.2]))
      (t, acc) = (if l.isEmpty then t else c, acc ++ l) := by
  induction l generalizing t acc with
  | nil => simp
  | cons x xs ih =>
    rw [List.map_cons, List.foldl_cons, ih]
    cases xs <;> simp

/-- The loop leaves in `totalRecords` the count that the rows carry, and 0 when
there is no row. -/
theorem scanAll_window {α : Type} (c : Int) (l : List α) :
    scanAll (l.map (fun r => (c, r))) = (if l.isEmpty then 0 else c, l) := by
  unfold scanAll
  rw [scanAll_foldl]
  simp

theorem orderLimitOffset_page {α : Type} (before : α → α → Bool) (selected : List α)
    (limit offset : Int) (hl : 1 ≤ limit) (ho : 0 ≤ offset) :
    ∃ page, orderLimitOffset before selected limit offset =
        .ok (page.map (fun r => ((selected.length : Int), r))) ∧
      (page = [] ↔ (selected.length : Int) ≤ offset) := by
  have h1 : ¬ limit < 0 := by omega
  have h2 : ¬ offset < 0 := by omega
  refine ⟨_, by simp only [orderLimitOffset, h1, h2, if_false]; rfl, ?_⟩
  rw [List.take_eq_nil_iff, List.drop_eq_nil_iff, List.length_insertionSort]
  constructor
  · rintro (h | h)
    · omega
    · omega
  · intro h
    right
    omega

theorem FoodModel_GetAll_total (pg : Postgres) (db : DB) (title : String) (recipe : StrSlice)
    (filters : Filters) (hp : 1 ≤ filters.Page) (hs : 1 ≤ filters.PageSize) :
    ∃ foods,
      (FoodModel.GetAll.scanned pg db title recipe filters).2 =
        .ok (if foods.isEmpty then 0
          else ((db.foods.filter (whereFoods pg title recipe)).length : Int), foods) ∧
      (foods = [] ↔
        ((db.foods.filter (whereFoods pg title recipe)).length : Int) ≤ filters.offset) := by
  have ho : 0 ≤ filters.offset := by
    unfold Filters.offset
    exact Int.mul_nonneg (by omega) (by omega)
  obtain ⟨page, hq, hpage⟩ := orderLimitOffset_page
    (orderedBefore pg.foodLe (fun r => r.ID) filters.sortColumn filters.sortDirection)
    (db.foods.filter (whereFoods pg title recipe)) filters.limit filters.offset hs ho
  refine ⟨page, ?_, hpage⟩
  unfold FoodModel.GetAll.scanned execGetAllFoods
  simp only [hq, scanAll_window]

theorem FoodModel_GetAll_of_scanned (pg : Postgres) (db : DB) (title : String) (recipe : StrSlice)
    (filters : Filters) (total : Int) (foods : List Food)
    (h : (FoodModel.GetAll.scanned pg db title recipe filters).2 = .ok (total, foods)) :
    (FoodModel.GetAll pg db title recipe filters).2 =
      (foods, calculateMetadata total filters.Page filters.PageSize, none) := by
  unfold FoodModel.GetAll
  split
  · rename_i heq
    rw [heq] at h
    simp at h
  · rename_i heq
    rw [heq] at h
    simp only [Except.ok.injEq, Prod.mk.injEq] at h
    rw [h.1, h.2]

theorem SaleModel_GetAll_total (pg : Postgres) (db : DB) (title : String) (foodsale : StrSlice)
    (filters : Filters) (hp : 1 ≤ filters.Page) (hs : 1 ≤ filters.PageSize) :
    ∃ sales,
      (SaleModel.GetAll.scanned pg db title foodsale filters).2 =
        .ok (if sales.isEmpty then 0
          else ((db.sales.filter (whereSales pg title foodsale)).length : Int), sales) ∧
      (sales = [] ↔
        ((db.sales.filter (whereSales pg title foodsale)).length : Int) ≤ filters.offset) := by
  have ho : 0 ≤ filters.offset := by
    unfold Filters.offset
    exact Int.mul_nonneg (by omega) (by omega)
  obtain ⟨page, hq, hpage⟩ := orderLimitOffset_page
    (orderedBefore pg.saleLe (fun r => r.ID) filters.sortColumn filters.sortDirection)
    (db.sales.filter (whereSales pg title foodsale)) filters.limit filters.offset hs ho
  refine ⟨page, ?_, hpage⟩
  unfold SaleModel.GetAll.scanned execGetAllSales
  simp only [hq, scanAll_window]

theorem SaleModel_GetAll_of_scanned (pg : Postgres) (db : DB) (title : String) (foodsale : StrSlice)
    (filters : Filters) (total : Int) (sales : List Sale)
    (h : (SaleModel.GetAll.scanned pg db title foodsale filters).2 = .ok (total, sales)) :
    (SaleModel.GetAll pg db title foodsale filters).2 =
      (sales, calculateMetadata total filters.Page filters.PageSize, none) := by
  unfold SaleModel.GetAll
  split
  · rename_i heq
    rw [heq] at h
    simp at h
  · rename_i heq
    rw [heq] at h
    simp only [Except.ok.injEq, Prod.mk.injEq] at h
    rw [h.1, h.2]

/-- C9 as stated fails.  Three foods, no filter, page 2 of size 20, sort key
`id`: all three rows satisfy the filters, the statement returns no row, the
loop never assigns `totalRecords`, and `calculateMetadata` is given 0. -/
theorem getAll_total_beyond_last_page_is_zero :
    (FoodModel.GetAll.scanned
        ⟨fun _ _ => false, fun _ a b => decide (a.ID ≤ b.ID), fun _ a b => decide (a.ID ≤ b.ID)⟩
        ⟨[⟨1, 0, "Pasta", 12, 20, some ["flour", "egg"], 1⟩,
          ⟨2, 0, "Soup", 5, 10, some ["water"], 1⟩,
          ⟨3, 0, "Pie", 7, 30, some ["flour"], 1⟩], [], []⟩
        "" (some [])
        ⟨2, 20, "id", ["id", "title", "price", "waittime", "-id", "-title", "-price",
          "-waittime"]⟩).2 = .ok (0, []) ∧
    List.countP
        (whereFoods
          ⟨fun _ _ => false, fun _ a b => decide (a.ID ≤ b.ID), fun _ a b => decide (a.ID ≤ b.ID)⟩
          "" (some []))
        [⟨1, 0, "Pasta", 12, 20, some ["flour", "egg"], 1⟩,
          ⟨2, 0, "Soup", 5, 10, some ["water"], 1⟩,
          ⟨3, 0, "Pie", 7, 30, some ["flour"], 1⟩] = 3 := by
  refine ⟨?_, by decide⟩
  obtain ⟨foods, hscan, hempty⟩ := FoodModel_GetAll_total
    ⟨fun _ _ => false, fun _ a b => decide (a.ID ≤ b.ID), fun _ a b => decide (a.ID ≤ b.ID)⟩
    ⟨[⟨1, 0, "Pasta", 12, 20, some ["flour", "egg"], 1⟩,
      ⟨2, 0, "Soup", 5, 10, some ["water"], 1⟩,
      ⟨3, 0, "Pie", 7, 30, some ["flour"], 1⟩], [], []⟩
    "" (some [])
    ⟨2, 20, "id", ["id", "title", "price", "waittime", "-id", "-title", "-price", "-waittime"]⟩
    (by decide) (by decide)
  have he : foods = [] := hempty.mpr (by decide)
  rw [he] at hscan
  exact hscan

/-- C9, amended.  For every database, title filter, tag filter and valid page
and page size, `GetAll` ends its loop and hands `totalRecords` to
`calculateMetadata`.  When the offset `(page - 1) * page_size` is below the
number of rows that satisfy the filters, the page has rows and `totalRecords`
is that number; when the requested page lies beyond the last one, the page is
empty and `totalRecords` is 0. -/
theorem getAll_total_is_count_unless_page_is_empty (pg : Postgres) (db : DB) (title : String)
    (tags : StrSlice) (filters : Filters)
    (hv : 1 ≤ filters.Page ∧ filters.Page ≤ 10000000 ∧
      1 ≤ filters.PageSize ∧ filters.PageSize ≤ 100) :
    (∃ total foods,
      (FoodModel.GetAll.scanned pg db title tags filters).2 = .ok (total, foods) ∧
      (FoodModel.GetAll pg db title tags filters).2 =
        (foods, calculateMetadata total filters.Page filters.PageSize, none) ∧
      (filters.offset < (db.foods.countP (whereFoods pg title tags) : Int) →
        foods ≠ [] ∧ total = db.foods.countP (whereFoods pg title tags)) ∧
      ((db.foods.countP (whereFoods pg title tags) : Int) ≤ filters.offset →
        foods = [] ∧ total = 0)) ∧
    (∃ total sales,
      (SaleModel.GetAll.scanned pg db title tags filters).2 = .ok (total, sales) ∧
      (SaleModel.GetAll pg db title tags filters).2 =
        (sales, calculateMetadata total filters.Page filters.PageSize, none) ∧
      (filters.offset < (db.sales.countP (whereSales pg title tags) : Int) →
        sales ≠ [] ∧ total = db.sales.countP (whereSales pg title tags)) ∧
      ((db.sales.countP (whereSales pg title tags) : Int) ≤ filters.offset →
        sales = [] ∧ total = 0)) := by
  obtain ⟨hp, -, hs, -⟩ := hv
  constructor
  · obtain ⟨foods, hscan, hempty⟩ := FoodModel_GetAll_total pg db title tags filters hp hs
    rw [← List.countP_eq_length_filter] at hscan hempty
    refine ⟨_, foods, hscan, FoodModel_GetAll_of_scanned _ _ _ _ _ _ _ hscan, ?_, ?_⟩
    · intro h
      have hne : foods ≠ [] := fun he => absurd (hempty.mp he) (by omega)
      refine ⟨hne, ?_⟩
      cases foods with
      | nil => exact absurd rfl hne
      | cons x xs => simp
    · intro h
      have he := hempty.mpr h
      exact ⟨he, by simp [he]⟩
  · obtain ⟨sales, hscan, hempty⟩ := SaleModel_GetAll_total pg db title tags filters hp hs
    rw [← List.countP_eq_length_filter] at hscan hempty
    refine ⟨_, sales, hscan, SaleModel_GetAll_of_scanned _ _ _ _ _ _ _ hscan, ?_, ?_⟩
    · intro h
      have hne : sales ≠ [] := fun he => absurd (hempty.mp he) (by omega)
      refine ⟨hne, ?_⟩
      cases sales with
      | nil => exact absurd rfl hne
      | cons x xs => simp
    · intro h
      have he := hempty.mpr h
      exact ⟨he, by simp [he]⟩

/-- C9, amended, at three foods of which two have `flour`, page 1 of size 2
(the total is 2), and at one sale, page 2 of size 20 (the total is 0). -/
theorem getAll_total_is_count_unless_page_is_empty_witness :
    (∃ total foods,
      (FoodModel.GetAll.scanned
        ⟨fun _ _ => false, fun _ a b => decide (a.ID ≤ b.ID), fun _ a b => decide (a.ID ≤ b.ID)⟩
        ⟨[⟨1, 0, "Pasta", 12, 20, some ["flour", "egg"], 1⟩,
          ⟨2, 0, "Soup", 5, 10, some ["water"], 1⟩,
          ⟨3, 0, "Pie", 7, 30, some ["flour"], 1⟩],
         [⟨1, 0, "Lunch", "", 30, some ["flour"], 1⟩], []⟩
        "" (some ["flour"]) ⟨1, 2, "id", ["id"]⟩).2 = .ok (total, foods) ∧
      foods ≠ [] ∧ total = 2) ∧
    (∃ total sales,
      (SaleModel.GetAll.scanned
        ⟨fun _ _ => false, fun _ a b => decide (a.ID ≤ b.ID), fun _ a b => decide (a.ID ≤ b.ID)⟩
        ⟨[⟨1, 0, "Pasta", 12, 20, some ["flour", "egg"], 1⟩,
          ⟨2, 0, "Soup", 5, 10, some ["water"], 1⟩,
          ⟨3, 0, "Pie", 7, 30, some ["flour"], 1⟩],
         [⟨1, 0, "Lunch", "", 30, some ["flour"], 1⟩], []⟩
        "" (some ["flour"]) ⟨2, 20, "id", ["id"]⟩).2 = .ok (total, sales) ∧
      sales = [] ∧ total = 0) := by
  constructor
  · obtain ⟨total, foods, hscan, -, hpage, -⟩ :=
      (getAll_total_is_count_unless_page_is_empty
        ⟨fun _ _ => false, fun _ a b => decide (a.ID ≤ b.ID), fun _ a b => decide (a.ID ≤ b.ID)⟩
        ⟨[⟨1, 0, "Pasta", 12, 20, some ["flour", "egg"], 1⟩,
          ⟨2, 0, "Soup", 5, 10, some ["water"], 1⟩,
          ⟨3, 0, "Pie", 7, 30, some ["flour"], 1⟩],
         [⟨1, 0, "Lunch", "", 30, some ["flour"], 1⟩], []⟩
        "" (some ["flour"]) ⟨1, 2, "id", ["id"]⟩ (by decide)).1
    exact ⟨total, foods, hscan, (hpage (by decide)).1, (hpage (by decide)).2⟩
  · obtain ⟨total, sales, hscan, -, -, hbeyond⟩ :=
      (getAll_total_is_count_unless_page_is_empty
        ⟨fun _ _ => false, fun _ a b => decide (a.ID ≤ b.ID), fun _ a b => decide (a.ID ≤ b.ID)⟩
        ⟨[⟨1, 0, "Pasta", 12, 20, some ["flour", "egg"], 1⟩,
          ⟨2, 0, "Soup", 5, 10, some ["water"], 1⟩,
          ⟨3, 0, "Pie", 7, 30, some ["flour"], 1⟩],
         [⟨1, 0, "Lunch", "", 30, some ["flour"], 1⟩], []⟩
        "" (some ["flour"]) ⟨2, 20, "id", ["id"]⟩ (by decide)).2
    exact ⟨total, sales, hscan, (hbeyond (by decide)).1, (hbeyond (by decide)).2⟩

/-! ## The merge of the update handlers -/

/-- C10. The merge of `updateFoodHandler` and of `updateSaleHandler`: each
field of the input that is present (not nil), an empty string or empty list
included, becomes the field of the resource; each field that is absent leaves
the fetched value; id, creation time and version are those of the fetched
resource. -/
theorem update_merge_takes_present_fields (food : Food) (input : FoodInput)
    (sale : Sale) (patch : SaleInput) :
    (((∀ t, input.Title = some t → (updateFoodHandler.merge food input).Title = t) ∧
        (input.Title = none → (updateFoodHandler.merge food input).Title = food.Title)) ∧
      ((∀ p, input.Price = some p → (updateFoodHandler.merge food input).Price = p) ∧
        (input.Price = none → (updateFoodHandler.merge food input).Price = food.Price)) ∧
      ((∀ w, input.Waittime = some w → (updateFoodHandler.merge food input).Waittime = w) ∧
        (input.Waittime = none →
          (updateFoodHandler.merge food input).Waittime = food.Waittime)) ∧
      ((∀ r, input.Recipe = some r → (updateFoodHandler.merge food input).Recipe = some r) ∧
        (input.Recipe = none → (updateFoodHandler.merge food input).Recipe = food.Recipe)) ∧
      (updateFoodHandler.merge food input).ID = food.ID ∧
      (updateFoodHandler.merge food input).CreatedAt = food.CreatedAt ∧
      (updateFoodHandler.merge food input).Version = food.Version) ∧
    (((∀ t, patch.Title = some t → (updateSaleHandler.merge sale patch).Title = t) ∧
        (patch.Title = none → (updateSaleHandler.merge sale patch).Title = sale.Title)) ∧
      ((∀ d, patch.Description = some d →
          (updateSaleHandler.merge sale patch).Description = d) ∧
        (patch.Description = none →
          (updateSaleHandler.merge sale patch).Description = sale.Description)) ∧
      ((∀ d, patch.Duration = some d → (updateSaleHandler.merge sale patch).Duration = d) ∧
        (patch.Duration = none →
          (updateSaleHandler.merge sale patch).Duration = sale.Duration)) ∧
      ((∀ f, patch.Foodsale = some f →
          (updateSaleHandler.merge sale patch).Foodsale = some f) ∧
        (patch.Foodsale = none →
          (updateSaleHandler.merge sale patch).Foodsale = sale.Foodsale)) ∧
      (updateSaleHandler.merge sale patch).ID = sale.ID ∧
      (updateSaleHandler.merge sale patch).CreatedAt = sale.CreatedAt ∧
      (updateSaleHandler.merge sale patch).Version = sale.Version) := by
  obtain ⟨it, ip, iw, ir⟩ := input
  obtain ⟨pt, pd, pu, pf⟩ := patch
  constructor
  · cases it <;> cases ip <;> cases iw <;> cases ir <;> simp [updateFoodHandler.merge]
  · cases pt <;> cases pd <;> cases pu <;> cases pf <;> simp [updateSaleHandler.merge]

/-- C10 at an input whose title is the empty string and whose list is empty,
the other two fields absent: title and list are overwritten, the rest is
kept. -/
theorem update_merge_takes_present_fields_witness :
    updateFoodHandler.merge ⟨7, 100, "Pasta", 12, 20, some ["flour", "egg"], 3⟩
      ⟨some "", none, none, some []⟩ = ⟨7, 100, "", 12, 20, some [], 3⟩ ∧
    updateSaleHandler.merge ⟨7, 100, "Lunch", "noon", 30, some ["1"], 3⟩
      ⟨some "", none, none, some []⟩ = ⟨7, 100, "", "noon", 30, some [], 3⟩ := by
  have h := update_merge_takes_present_fields
    ⟨7, 100, "Pasta", 12, 20, some ["flour", "egg"], 3⟩ ⟨some "", none, none, some []⟩
    ⟨7, 100, "Lunch", "noon", 30, some ["1"], 3⟩ ⟨some "", none, none, some []⟩
  obtain ⟨⟨⟨f1, -⟩, ⟨-, f2⟩, ⟨-, f3⟩, ⟨f4, -⟩, f5, f6, f7⟩,
    ⟨⟨s1, -⟩, ⟨-, s2⟩, ⟨-, s3⟩, ⟨s4, -⟩, s5, s6, s7⟩⟩ := h
  constructor
  · have e1 := f1 "" rfl
    have e2 := f2 rfl
    have e3 := f3 rfl
    have e4 := f4 [] rfl
    generalize updateFoodHandler.merge _ _ = m at *
    obtain ⟨a, b, c, d, e, f, g⟩ := m
    simp only at e1 e2 e3 e4 f5 f6 f7
    subst e1 e2 e3 e4 f5 f6 f7
    rfl
  · have e1 := s1 "" rfl
    have e2 := s2 rfl
    have e3 := s3 rfl
    have e4 := s4 [] rfl
    generalize updateSaleHandler.merge _ _ = m at *
    obtain ⟨a, b, c, d, e, f, g⟩ := m
    simp only at e1 e2 e3 e4 s5 s6 s7
    subst e1 e2 e3 e4 s5 s6 s7
    rfl

/-! ## A failed `Get` in the update handlers -/

theorem updateFoodHandler_Get_not_found (db : DB) (id : Int) (body : Except Error FoodInput)
    (h : (FoodModel.Get db id).2 = .error .ErrRecordNotFound) :
    updateFoodHandler db (.ok id) body =
      ((FoodModel.Get db id).1, .serverErrorResponse .ErrRecordNotFound) := by
  unfold updateFoodHandler
  simp only
  split
  · rename_i db1 err heq
    rw [heq] at h
    simp only [Except.error.injEq] at h
    subst h
    rw [heq]
  · rename_i db1 food heq
    rw [heq] at h
    simp at h

theorem showFoodHandler_Get_not_found (db : DB) (id : Int)
    (h : (FoodModel.Get db id).2 = .error .ErrRecordNotFound) :
    showFoodHandler db (.ok id) = ((FoodModel.Get db id).1, .notFoundResponse) := by
  unfold showFoodHandler
  simp only
  split
  · rename_i db1 err heq
    rw [heq] at h
    simp only [Except.error.injEq] at h
    subst h
    rw [heq]
  · rename_i db1 food heq
    rw [heq] at h
    simp at h

theorem updateSaleHandler_Get_not_found (db : DB) (id : Int) (body : Except Error SaleInput)
    (h : (SaleModel.Get db id).2 = .error .ErrRecordNotFound) :
    updateSaleHandler db (.ok id) body =
      ((SaleModel.Get db id).1, .serverErrorResponse .ErrRecordNotFound) := by
  unfold updateSaleHandler
  simp only
  split
  · rename_i db1 err heq
    rw [heq] at h
    simp only [Except.error.injEq] at h
    subst h
    rw [heq]
  · rename_i db1 sale heq
    rw [heq] at h
    simp at h

theorem showSaleHandler_Get_not_found (db : DB) (id : Int)
    (h : (SaleModel.Get db id).2 = .error .ErrRecordNotFound) :
    showSaleHandler db (.ok id) = ((SaleModel.Get db id).1, .notFoundResponse) := by
  unfold showSaleHandler
  simp only
  split
  · rename_i db1 err heq
    rw [heq] at h
    simp only [Except.error.injEq] at h
    subst h
    rw [heq]
  · rename_i db1 sale heq
    rw [heq] at h
    simp at h

/-- C11 fails on the code.  On a database with food 1 and sale 1, an update of
id 2: `Get` returns `ErrRecordNotFound`, the handlers compare the error with
`ErrInvalidRuntimeFormat`, and `updateFoodHandler` and `updateSaleHandler` end
in `serverErrorResponse`; on the same database and id, `showFoodHandler` and
`showSaleHandler` end in `notFoundResponse`. -/
theorem update_handlers_report_not_found_as_server_error :
    (FoodModel.Get ⟨[⟨1, 0, "Pasta", 12, 20, some ["flour"], 1⟩],
        [⟨1, 0, "Lunch", "", 30, some ["1"], 1⟩], []⟩ 2).2 = .error .ErrRecordNotFound ∧
    updateFoodHandler ⟨[⟨1, 0, "Pasta", 12, 20, some ["flour"], 1⟩],
        [⟨1, 0, "Lunch", "", 30, some ["1"], 1⟩], []⟩ (.ok 2)
        (.ok ⟨some "Pizza", none, none, none⟩) =
      (⟨[⟨1, 0, "Pasta", 12, 20, some ["flour"], 1⟩], [⟨1, 0, "Lunch", "", 30, some ["1"], 1⟩],
        ["SELECT * FROM foods WHERE id = $1"]⟩, .serverErrorResponse .ErrRecordNotFound) ∧
    showFoodHandler ⟨[⟨1, 0, "Pasta", 12, 20, some ["flour"], 1⟩],
        [⟨1, 0, "Lunch", "", 30, some ["1"], 1⟩], []⟩ (.ok 2) =
      (⟨[⟨1, 0, "Pasta", 12, 20, some ["flour"], 1⟩], [⟨1, 0, "Lunch", "", 30, some ["1"], 1⟩],
        ["SELECT * FROM foods WHERE id = $1"]⟩, .notFoundResponse) ∧
    (SaleModel.Get ⟨[⟨1, 0, "Pasta", 12, 20, some ["flour"], 1⟩],
        [⟨1, 0, "Lunch", "", 30, some ["1"], 1⟩], []⟩ 2).2 = .error .ErrRecordNotFound ∧
    updateSaleHandler ⟨[⟨1, 0, "Pasta", 12, 20, some ["flour"], 1⟩],
        [⟨1, 0, "Lunch", "", 30, some ["1"], 1⟩], []⟩ (.ok 2)
        (.ok ⟨some "Dinner", none, none, none⟩) =
      (⟨[⟨1, 0, "Pasta", 12, 20, some ["flour"], 1⟩], [⟨1, 0, "Lunch", "", 30, some ["1"], 1⟩],
        ["SELECT * FROM sales WHERE id = $1"]⟩, .serverErrorResponse .ErrRecordNotFound) ∧
    showSaleHandler ⟨[⟨1, 0, "Pasta", 12, 20, some ["flour"], 1⟩],
        [⟨1, 0, "Lunch", "", 30, some ["1"], 1⟩], []⟩ (.ok 2) =
      (⟨[⟨1, 0, "Pasta", 12, 20, some ["flour"], 1⟩], [⟨1, 0, "Lunch", "", 30, some ["1"], 1⟩],
        ["SELECT * FROM sales WHERE id = $1"]⟩, .notFoundResponse) :=
  ⟨rfl, updateFoodHandler_Get_not_found _ 2 _ rfl, showFoodHandler_Get_not_found _ 2 rfl,
   rfl, updateSaleHandler_Get_not_found _ 2 _ rfl, showSaleHandler_Get_not_found _ 2 rfl⟩

/-! ## The index in `listSalesHandler` -/

theorem ValidateFilters_valid (v : Validator) (f : Filters)
    (h : (ValidateFilters v f).Valid = true) : 1 ≤ f.Page ∧ 1 ≤ f.PageSize := by
  unfold ValidateFilters at h
  simp only [Validator_Check_Valid, Bool.and_eq_true, decide_eq_true_eq, gt_iff_lt] at h
  obtain ⟨⟨⟨⟨⟨-, h1⟩, -⟩, h2⟩, -⟩, -⟩ := h
  omega

/-- Once the filters are valid, `listSalesHandler` is its lines after `GetAll`
on what `GetAll` returns. -/
theorem listSalesHandler_valid (pg : Postgres) (db : DB) (qs : ListQuery)
    (hv : (ValidateFilters qs.v
      { Page := qs.page, PageSize := qs.pageSize, SortKey := qs.sort,
        SortSafeList := ["id", "title", "description", "duration", "-id", "-title",
          "-description", "-duration"] }).Valid = true) :
    listSalesHandler pg db qs = listSalesHandler.afterGetAll
      (SaleModel.GetAll pg db qs.title qs.csv
        { Page := qs.page, PageSize := qs.pageSize, SortKey := qs.sort,
          SortSafeList := ["id", "title", "description", "duration", "-id", "-title",
            "-description", "-duration"] }) := by
  unfold listSalesHandler listSalesHandler.afterGetAll
  simp only [hv, Bool.not_true, Bool.false_eq_true, if_false]

/-- Once the filters are valid, `listFoodsHandler` is its lines after `GetAll`
on what `GetAll` returns. -/
theorem listFoodsHandler_valid (pg : Postgres) (db : DB) (qs : ListQuery)
    (hv : (ValidateFilters qs.v
      { Page := qs.page, PageSize := qs.pageSize, SortKey := qs.sort,
        SortSafeList := ["id", "title", "price", "waittime", "-id", "-title", "-price",
          "-waittime"] }).Valid = true) :
    listFoodsHandler pg db qs = listFoodsHandler.afterGetAll
      (FoodModel.GetAll pg db qs.title qs.csv
        { Page := qs.page, PageSize := qs.pageSize, SortKey := qs.sort,
          SortSafeList := ["id", "title", "price", "waittime", "-id", "-title", "-price",
            "-waittime"] }) := by
  unfold listFoodsHandler listFoodsHandler.afterGetAll
  simp only [hv, Bool.not_true, Bool.false_eq_true, if_false]

/-- With fewer than two sales in the slice, whatever the error, the lines after
`GetAll` end in the panic of the index. -/
theorem listSalesHandler_afterGetAll_short (db : DB) (sales : List Sale) (metadata : Metadata)
    (err : Option Error) (h : sales.length < 2) :
    listSalesHandler.afterGetAll (db, sales, metadata, err) =
      (db, .indexOutOfRange 1 sales.length) := by
  unfold listSalesHandler.afterGetAll
  match sales, h with
  | [], _ => rfl
  | [_], _ => rfl

/-- With two sales or more in the slice and no error, the lines after `GetAll`
write the sales and the metadata. -/
theorem listSalesHandler_afterGetAll_long (db : DB) (sales : List Sale) (metadata : Metadata)
    (h : 2 ≤ sales.length) :
    listSalesHandler.afterGetAll (db, sales, metadata, none) =
      (db, .writeJSON 200 (.sales sales metadata)) := by
  unfold listSalesHandler.afterGetAll
  match sales, h with
  | _ :: _ :: _, _ => rfl

/-- With valid filters `listFoodsHandler` writes the foods and the metadata,
whatever the number of foods. -/
theorem listFoodsHandler_completes (pg : Postgres) (db : DB) (qs : ListQuery)
    (hv : (ValidateFilters qs.v
      { Page := qs.page, PageSize := qs.pageSize, SortKey := qs.sort,
        SortSafeList := ["id", "title", "price", "waittime", "-id", "-title", "-price",
          "-waittime"] }).Valid = true) :
    ∃ foods metadata, (listFoodsHandler pg db qs).2 = .writeJSON 200 (.foods foods metadata) := by
  obtain ⟨hp, hs⟩ := ValidateFilters_valid _ _ hv
  obtain ⟨foods, hscan, -⟩ := FoodModel_GetAll_total pg db qs.title qs.csv _ hp hs
  have hall := FoodModel_GetAll_of_scanned _ _ _ _ _ _ _ hscan
  rw [listFoodsHandler_valid pg db qs hv]
  generalize FoodModel.GetAll pg db qs.title qs.csv _ = out at hall
  obtain ⟨db1, fs, md, e⟩ := out
  simp only [Prod.mk.injEq] at hall
  obtain ⟨rfl, rfl, rfl⟩ := hall
  exact ⟨_, _, rfl⟩

/-- With valid filters and an offset that is not below the number of sales
that satisfy the filters, `listSalesHandler` ends in the panic of the index. -/
theorem listSalesHandler_empty_page (pg : Postgres) (db : DB) (qs : ListQuery)
    (hv : (ValidateFilters qs.v
      { Page := qs.page, PageSize := qs.pageSize, SortKey := qs.sort,
        SortSafeList := ["id", "title", "description", "duration", "-id", "-title",
          "-description", "-duration"] }).Valid = true)
    (h : (db.sales.countP (whereSales pg qs.title qs.csv) : Int) ≤ (qs.page - 1) * qs.pageSize) :
    (listSalesHandler pg db qs).2 = .indexOutOfRange 1 0 := by
  obtain ⟨hp, hs⟩ := ValidateFilters_valid _ _ hv
  obtain ⟨sales, hscan, hempty⟩ := SaleModel_GetAll_total pg db qs.title qs.csv _ hp hs
  rw [← List.countP_eq_length_filter] at hempty
  have he : sales = [] := hempty.mpr h
  subst he
  have hall := SaleModel_GetAll_of_scanned _ _ _ _ _ _ _ hscan
  rw [listSalesHandler_valid pg db qs hv]
  generalize SaleModel.GetAll pg db qs.title qs.csv _ = out at hall
  obtain ⟨db1, ss, md, e⟩ := out
  simp only [Prod.mk.injEq] at hall
  obtain ⟨rfl, rfl, rfl⟩ := hall
  rfl

/-- C12 fails on the code.  The lines of `listSalesHandler` after `GetAll` end
in the panic of `sales[1]` for an error with a nil slice, for an empty slice
and for a slice of one sale.  So does the handler itself on the default query
(page 1, page size 20, sort key `id`) over a table of one sale and over an
empty table; `listFoodsHandler`, which has no such line, writes its response
over a table of one food. -/
theorem listSalesHandler_index_out_of_range :
    listSalesHandler.afterGetAll
        (⟨[], [], []⟩, [], ⟨0, 0, 0, 0, 0⟩, some (.other "context deadline exceeded")) =
      (⟨[], [], []⟩, .indexOutOfRange 1 0) ∧
    listSalesHandler.afterGetAll (⟨[], [], []⟩, [], ⟨0, 0, 0, 0, 0⟩, none) =
      (⟨[], [], []⟩, .indexOutOfRange 1 0) ∧
    listSalesHandler.afterGetAll
        (⟨[], [⟨1, 0, "Lunch", "", 30, some ["1"], 1⟩], []⟩,
          [⟨1, 0, "Lunch", "", 30, some ["1"], 1⟩], ⟨1, 20, 1, 1, 1⟩, none) =
      (⟨[], [⟨1, 0, "Lunch", "", 30, some ["1"], 1⟩], []⟩, .indexOutOfRange 1 1) ∧
    (listSalesHandler
        ⟨fun _ _ => false, fun _ a b => decide (a.ID ≤ b.ID), fun _ a b => decide (a.ID ≤ b.ID)⟩
        ⟨[], [⟨1, 0, "Lunch", "", 30, some ["1"], 1⟩], []⟩
        ⟨"", some [], 1, 20, "id", Validator.New⟩).2 = .indexOutOfRange 1 1 ∧
    (listSalesHandler
        ⟨fun _ _ => false, fun _ a b => decide (a.ID ≤ b.ID), fun _ a b => decide (a.ID ≤ b.ID)⟩
        ⟨[], [], []⟩
        ⟨"", some [], 1, 20, "id", Validator.New⟩).2 = .indexOutOfRange 1 0 ∧
    (∃ foods metadata,
      (listFoodsHandler
        ⟨fun _ _ => false, fun _ a b => decide (a.ID ≤ b.ID), fun _ a b => decide (a.ID ≤ b.ID)⟩
        ⟨[⟨1, 0, "Pasta", 12, 20, some ["flour"], 1⟩], [], []⟩
        ⟨"", some [], 1, 20, "id", Validator.New⟩).2 = .writeJSON 200 (.foods foods metadata)) :=
  ⟨rfl, rfl, rfl, by decide,
   listSalesHandler_empty_page _ _ _ (by decide) (by decide),
   listFoodsHandler_completes _ _ _ (by decide)⟩

end Gofinal
